import Mathlib

/-!
# AC_WPNav: waypoint / spline guidance engine

A shallow embedding of `libraries/AC_WPNav/AC_WPNav.h`.

Conventions of the embedding:

* C++ `float` values are idealised as real numbers (`ℝ`): arithmetic is exact, there is no
  rounding, no NaN and no infinity.  `safe_sqrt`-style square roots are `Real.sqrt`, which is
  `0` on negative arguments.
* A one-bit `uint8_t` bitfield is a `Bool`.
* A member function taking the implicit receiver `this` becomes a function taking the state
  `s : State`; a mutating member function returns the new state.
* Values the engine reads from its collaborators during one call (inertial position, terrain
  database) are passed as an explicit snapshot `Env`.
* Only the inline member functions have their bodies in the header.  The out-of-line member
  functions (their bodies live in a translation unit that is not part of the sources at hand)
  are modelled from the design specification; every such definition says so in its doc comment.
-/

namespace AC_WPNav

/-! ## Constants of the header -/

/-- Header constant `WPNAV_ACCELERATION` (cm/s/s). -/
def WPNAV_ACCELERATION : ℝ := 100
/-- Header constant `WPNAV_ACCELERATION_MIN` (cm/s/s), used for sanity checking. -/
def WPNAV_ACCELERATION_MIN : ℝ := 50
/-- Header constant `WPNAV_WP_SPEED` (cm/s). -/
def WPNAV_WP_SPEED : ℝ := 500
/-- Header constant `WPNAV_WP_SPEED_MIN` (cm/s). -/
def WPNAV_WP_SPEED_MIN : ℝ := 20
/-- Header constant `WPNAV_WP_TRACK_SPEED_MIN` (cm/s): minimum speed along track of the target
point, used as the target slows down before reaching the destination. -/
def WPNAV_WP_TRACK_SPEED_MIN : ℝ := 50
/-- Header constant `WPNAV_WP_RADIUS` (cm). -/
def WPNAV_WP_RADIUS : ℝ := 200
/-- Header constant `WPNAV_WP_RADIUS_MIN` (cm). -/
def WPNAV_WP_RADIUS_MIN : ℝ := 5
/-- Header constant `WPNAV_LEASH_LENGTH_MIN` (cm). -/
def WPNAV_LEASH_LENGTH_MIN : ℝ := 100
/-- Header constant `WPNAV_WP_FAST_OVERSHOOT_MAX` (cm). -/
def WPNAV_WP_FAST_OVERSHOOT_MAX : ℝ := 20

/-! ## Data model -/

/-- Three-dimensional vector (`Vector3f` of AP_Math), components idealised as reals. -/
@[ext]
structure Vector3f where
  x : ℝ
  y : ℝ
  z : ℝ

namespace Vector3f

/-- The zero vector. -/
def zero : Vector3f := ⟨0, 0, 0⟩

/-- Component-wise sum (`operator +`). -/
def add (a b : Vector3f) : Vector3f := ⟨a.x + b.x, a.y + b.y, a.z + b.z⟩

/-- Component-wise difference (`operator -`). -/
def sub (a b : Vector3f) : Vector3f := ⟨a.x - b.x, a.y - b.y, a.z - b.z⟩

/-- Multiplication by a scalar (`operator *`). -/
def smul (a : Vector3f) (k : ℝ) : Vector3f := ⟨a.x * k, a.y * k, a.z * k⟩

/-- Dot product. -/
def dot (a b : Vector3f) : ℝ := a.x * b.x + a.y * b.y + a.z * b.z

/-- Euclidean length. -/
noncomputable def length (a : Vector3f) : ℝ := Real.sqrt (a.x * a.x + a.y * a.y + a.z * a.z)

end Vector3f

/-- Enum `AC_WPNav::spline_segment_end_type`. -/
inductive spline_segment_end_type where
  | SEGMENT_END_STOP
  | SEGMENT_END_STRAIGHT
  | SEGMENT_END_SPLINE
  deriving DecidableEq, Repr

/-- Enum `AC_WPNav::SegmentType`. -/
inductive SegmentType where
  | SEGMENT_STRAIGHT
  | SEGMENT_SPLINE
  deriving DecidableEq, Repr

/-- Bitfield struct `AC_WPNav::wpnav_flags`; every one-bit field is a `Bool`. -/
structure wpnav_flags where
  do_cmds_before_next_nav : Bool
  waypoint_completed : Bool
  reached_destination : Bool
  reached_previous_wpt : Bool
  fast_waypoint : Bool
  slowing_down : Bool
  recalc_wp_leash : Bool
  new_wp_destination : Bool
  segment_type : SegmentType
  wp_yaw_set : Bool
  deriving DecidableEq, Repr

/-- The part of the position controller collaborator (`AC_PosControl& _pos_control`) that the
guidance engine writes: the commanded target position and velocity. -/
structure AC_PosControl where
  pos_target : Vector3f
  vel_desired : Vector3f

/-- Data members of `class AC_WPNav` (references to collaborators other than the position
controller targets are left out; `AP_Float` is a real, `AP_Int8` an integer). -/
structure State where
  _flags : wpnav_flags
  _pos_control : AC_PosControl
  -- parameters
  _wp_speed_cms : ℝ
  _wp_speed_up_cms : ℝ
  _wp_speed_down_cms : ℝ
  _wp_radius_cm : ℝ
  _wp_accel_cmss : ℝ
  _wp_accel_z_cmss : ℝ
  -- waypoint controller internal variables
  _wp_desired_speed_xy_cms : ℝ
  _origin : Vector3f
  _destination : Vector3f
  _pos_delta_unit : Vector3f
  _track_error_xy : ℝ
  _track_length : ℝ
  _track_length_xy : ℝ
  _track_desired : ℝ
  _limited_speed_xy_cms : ℝ
  _track_accel : ℝ
  _track_speed : ℝ
  _track_leash_length : ℝ
  _slow_down_dist : ℝ
  -- spline variables
  _spline_time : ℝ
  _spline_time_scale : ℝ
  _spline_origin_vel : Vector3f
  _spline_destination_vel : Vector3f
  _hermite_spline_solution : Fin 4 → Vector3f
  _spline_vel_scaler : ℝ
  _yaw : ℝ
  -- terrain following variables
  _terrain_alt : Bool
  _rangefinder_available : Bool
  _rangefinder_use : ℤ
  _rangefinder_healthy : Bool
  _rangefinder_alt_cm : ℝ
  -- precisionvision addons
  _wp_fast_overshoot_max : ℝ

/-- Snapshot of what the engine reads from its collaborators during one call: the inertial
navigation position (`_inav.get_position()`, cm from the EKF origin) and the terrain
database height at the current horizontal position (`none` when the lookup fails). -/
structure Env where
  curr_pos : Vector3f
  terrain_height : Option ℝ

/-! ## Inline member functions of the header -/

/-- Source: `void set_rangefinder_alt(bool use, bool healthy, float alt_cm)`. -/
def set_rangefinder_alt (s : State) (use healthy : Bool) (alt_cm : ℝ) : State :=
  { s with _rangefinder_available := use, _rangefinder_healthy := healthy,
           _rangefinder_alt_cm := alt_cm }

/-- Source: `bool rangefinder_used() const { return _rangefinder_use && _rangefinder_healthy; }`. -/
def rangefinder_used (s : State) : Bool :=
  decide (s._rangefinder_use ≠ 0) && s._rangefinder_healthy

/-- Source: `bool origin_and_destination_are_terrain_alt() const { return _terrain_alt; }`. -/
def origin_and_destination_are_terrain_alt (s : State) : Bool := s._terrain_alt

/-- Source: `virtual bool reached_wp_destination() const { return _flags.reached_destination; }`. -/
def reached_wp_destination (s : State) : Bool := s._flags.reached_destination

/-- Source: `virtual bool waypoint_completed() const { return _flags.waypoint_completed; }`. -/
def waypoint_completed (s : State) : Bool := s._flags.waypoint_completed

/-- Source: `virtual bool reached_prev_wpt() const { return _flags.reached_previous_wpt; }`. -/
def reached_prev_wpt (s : State) : Bool := s._flags.reached_previous_wpt

/-- Source: `void set_fast_waypoint(bool fast)`.  The body prints a diagnostic line with `printf`
(standard output is not part of the engine state) and assigns `_flags.fast_waypoint = fast`. -/
def set_fast_waypoint (s : State) (fast : Bool) : State :=
  { s with _flags := { s._flags with fast_waypoint := fast } }

/-- Source: `bool is_fast_waypoint(){return _flags.fast_waypoint;}`. -/
def is_fast_waypoint (s : State) : Bool := s._flags.fast_waypoint

/-- Source: `void resetReachedPreviousWaypoint(){_flags.reached_previous_wpt = false;}`. -/
def resetReachedPreviousWaypoint (s : State) : State :=
  { s with _flags := { s._flags with reached_previous_wpt := false } }

/-- Source: `void set_execute_do_cmds_before_next_nav(bool executeDoCmdsBeforeNav)`. -/
def set_execute_do_cmds_before_next_nav (s : State) (executeDoCmdsBeforeNav : Bool) : State :=
  { s with _flags := { s._flags with do_cmds_before_next_nav := executeDoCmdsBeforeNav } }

/-- Source: `bool reached_spline_destination() const { return _flags.reached_destination; }`. -/
def reached_spline_destination (s : State) : Bool := s._flags.reached_destination

/-- Source: `float crosstrack_error() const { return _track_error_xy;}`. -/
def crosstrack_error (s : State) : ℝ := s._track_error_xy

/-- Modelled from the spec: the body of `get_wp_distance_to_destination` is not in the header,
which only declares it ("get horizontal distance to destination in cm").  It is the length of
the horizontal (x/y) part of the vector from the current position to the destination. -/
noncomputable def get_wp_distance_to_destination (s : State) (env : Env) : ℝ :=
  Real.sqrt ((s._destination.x - env.curr_pos.x) * (s._destination.x - env.curr_pos.x)
    + (s._destination.y - env.curr_pos.y) * (s._destination.y - env.curr_pos.y))

/-- Source: `bool reached_wp_destination_xy() const
{ return get_wp_distance_to_destination() < _wp_radius_cm; }`. -/
noncomputable def reached_wp_destination_xy (s : State) (env : Env) : Bool :=
  decide (get_wp_distance_to_destination s env < s._wp_radius_cm)

/-! ## Out-of-line member functions, modelled from the design specification

The header declares the functions below without a body.  Each definition follows the
sentences of the design specification that describe it; the sentences are quoted. -/

noncomputable section

/-- Modelled from the spec: `calc_slow_down_distance(speed_cms, accel_cmss)` is declared in the
header without a body.  §4.2: "Given cruise speed `S` and deceleration `A`, the
start-of-deceleration distance is `d = S²/(2A)`"; the result is stored in `_slow_down_dist`. -/
def calc_slow_down_distance (s : State) (speed_cms accel_cmss : ℝ) : State :=
  { s with _slow_down_dist := speed_cms * speed_cms / (2 * accel_cmss) }

/-- Modelled from the spec: `get_slow_down_speed(dist_from_dest_cm, accel_cmss)` is declared in
the header without a body.  §4.2: "For any remaining distance `r` to the destination, the
instantaneous speed limit is `v(r) = min(S, sqrt(2·A·r))`, clamped to a configured minimum
on-track speed so the target does not stall short of completion."  The cruise speed `S` is the
receiver's desired waypoint speed `_wp_desired_speed_xy_cms`; the minimum on-track speed is
the header constant `WPNAV_WP_TRACK_SPEED_MIN`. -/
def get_slow_down_speed (s : State) (dist_from_dest_cm accel_cmss : ℝ) : ℝ :=
  max WPNAV_WP_TRACK_SPEED_MIN
    (min s._wp_desired_speed_xy_cms (Real.sqrt (2 * accel_cmss * dist_from_dest_cm)))

/-- Modelled from the spec: `update_spline_solution` is declared in the header without a body
("recalculates hermite_spline_solution grid").  §4.4: "solve the four Hermite coefficients
satisfying position and velocity boundary conditions at `t=0` and `t=1`".  The four vectors
are the coefficients of `1, t, t², t³` of the cubic through the two endpoints with the two
end velocities. -/
def update_spline_solution (s : State) (origin dest origin_vel dest_vel : Vector3f) : State :=
  { s with _hermite_spline_solution :=
      ![origin,
        origin_vel,
        (((dest.sub origin).smul 3).sub (origin_vel.smul 2)).sub dest_vel,
        (((origin.sub dest).smul 2).add origin_vel).add dest_vel] }

/-- Modelled from the spec: `calc_spline_pos_vel(spline_time, position, velocity)` is declared
in the header without a body ("update position and velocity from given spline time").  §4.4:
"evaluate position and velocity by polynomial evaluation at current `t`".  The two output
parameters are returned as the pair `(position, velocity)`. -/
def calc_spline_pos_vel (s : State) (spline_time : ℝ) : Vector3f × Vector3f :=
  let spline_time_sqrd := spline_time * spline_time
  let spline_time_cubed := spline_time_sqrd * spline_time
  let h := s._hermite_spline_solution
  ( (((h 0).add ((h 1).smul spline_time)).add ((h 2).smul spline_time_sqrd)).add
      ((h 3).smul spline_time_cubed),
    ((h 1).add ((h 2).smul (2 * spline_time))).add ((h 3).smul (3 * spline_time_sqrd)) )

/-- Modelled from the spec: `get_terrain_offset(offset_cm)` is declared in the header without
a body ("get terrain's altitude (in cm above the ekf origin) at the current position").  §4.5:
"looks up current terrain height at the horizontal position (from an external terrain store,
falling back to a rangefinder sample if terrain data is stale/missing and rangefinder use is
enabled and healthy) ... Fails (signals inability to resolve) if neither source is available".
The C++ result `bool` plus output parameter is an `Option`; the rangefinder sample gives the
terrain height as current altitude minus measured height above ground. -/
def get_terrain_offset (s : State) (env : Env) : Option ℝ :=
  match env.terrain_height with
  | some h => some h
  | none => if rangefinder_used s then some (env.curr_pos.z - s._rangefinder_alt_cm) else none

/-- Modelled from the spec: first step of the advance functions, whose bodies are not in the
header.  §6: advance "fails if terrain data required for the *current* position cannot be
resolved".  The terrain offset for a terrain-relative segment, zero for a segment relative to
the fixed origin, `none` when the offset is needed and unavailable. -/
def resolve_terrain_offset (s : State) (env : Env) : Option ℝ :=
  if s._terrain_alt then get_terrain_offset s env else some 0

/-- Modelled from the spec: `calculate_wp_leash_length` is declared in the header without a
body ("calculates track speed, acceleration and leash lengths for waypoint controller").
§4.1: "the standard constant-acceleration relation `v_max = min(S, sqrt(2·A·L))`" and "the
leash length ... as a function of speed and acceleration, bounded below by a configured
minimum"; §7: non-positive speed/acceleration is "clamped to a safe minimum".  The function
of speed and acceleration is not fixed by the specification and is the argument `leash_of`;
the minimum is the header constant `WPNAV_LEASH_LENGTH_MIN`.  The dirty flag is cleared. -/
def calculate_wp_leash_length (leash_of : ℝ → ℝ → ℝ) (s : State) : State :=
  let speed := max s._wp_desired_speed_xy_cms WPNAV_WP_SPEED_MIN
  let accel := max s._wp_accel_cmss WPNAV_ACCELERATION_MIN
  { s with _track_accel := accel
           _track_speed := min speed (Real.sqrt (2 * accel * s._track_length))
           _track_leash_length := max WPNAV_LEASH_LENGTH_MIN (leash_of speed accel)
           _flags := { s._flags with recalc_wp_leash := false } }

/-- Modelled from the spec: `check_wp_leash_length` is declared in the header without a body;
its header comment reads "check recalc_wp_leash flag and calls calculate_wp_leash_length() if
necessary" (§4.1: "Recomputation is triggered by a dirty flag"). -/
def check_wp_leash_length (leash_of : ℝ → ℝ → ℝ) (s : State) : State :=
  if s._flags.recalc_wp_leash then calculate_wp_leash_length leash_of s else s

/-- Modelled from the spec: `set_speed_xy(speed_cms)` is declared in the header without a body.
§6: "mutate configuration; must mark derived limits stale". -/
def set_speed_xy (s : State) (speed_cms : ℝ) : State :=
  { s with _wp_desired_speed_xy_cms := speed_cms
           _flags := { s._flags with recalc_wp_leash := true } }

/-- Modelled from the spec: `set_speed_up(speed_up_cms)` is declared in the header without a
body.  §6: "mutate configuration; must mark derived limits stale". -/
def set_speed_up (s : State) (speed_up_cms : ℝ) : State :=
  { s with _wp_speed_up_cms := speed_up_cms
           _flags := { s._flags with recalc_wp_leash := true } }

/-- Modelled from the spec: `set_speed_down(speed_down_cms)` is declared in the header without
a body.  §6: "mutate configuration; must mark derived limits stale". -/
def set_speed_down (s : State) (speed_down_cms : ℝ) : State :=
  { s with _wp_speed_down_cms := speed_down_cms
           _flags := { s._flags with recalc_wp_leash := true } }

/-- Modelled from the spec: flags of a freshly commanded segment, part of the segment setters
whose bodies are not in the header.  §3: a segment is "replaced wholesale on the next
command"; `reached_previous_wpt` is "true only if the *previous* leg was actually flown";
`new_destination` is a "one-tick latch". -/
def new_segment_flags (f : wpnav_flags) (kind : SegmentType) : wpnav_flags :=
  { f with reached_destination := false
           waypoint_completed := false
           reached_previous_wpt := f.reached_destination
           slowing_down := false
           new_wp_destination := true
           segment_type := kind }

/-- Modelled from the spec: geometry of a freshly commanded segment, part of the segment
setters whose bodies are not in the header (§3, Track Derived State: "unit direction vector,
full 3D length, horizontal length"); progress along the track restarts at zero.  A segment of
length zero gets the zero direction vector. -/
def set_segment_geometry (s : State) (origin destination : Vector3f) (terrain_alt : Bool)
    (kind : SegmentType) : State :=
  let pos_delta := destination.sub origin
  let track_length := pos_delta.length
  { s with _origin := origin
           _destination := destination
           _terrain_alt := terrain_alt
           _track_length := track_length
           _track_length_xy := Real.sqrt (pos_delta.x * pos_delta.x + pos_delta.y * pos_delta.y)
           _pos_delta_unit :=
             if track_length = 0 then Vector3f.zero else pos_delta.smul (1 / track_length)
           _track_desired := 0
           _flags := new_segment_flags s._flags kind }

/-- Modelled from the spec: `set_wp_origin_and_destination(origin, destination, terrain_alt)` is
declared in the header without a body ("returns false on failure (likely caused by missing
terrain data)").  §6: "`set_segment(origin, destination, terrain_alt) -> bool`: fails if
altitude resolution is impossible at call time"; §2: the caller "sets a new segment → the
planner recomputes limits". -/
def set_wp_origin_and_destination (leash_of : ℝ → ℝ → ℝ) (s : State) (env : Env)
    (origin destination : Vector3f) (terrain_alt : Bool) : Bool × State :=
  match (if terrain_alt then get_terrain_offset s env else some 0) with
  | none => (false, s)
  | some _ =>
    let s1 := set_segment_geometry s origin destination terrain_alt SegmentType.SEGMENT_STRAIGHT
    let s2 := calculate_wp_leash_length leash_of s1
    (true, calc_slow_down_distance s2 s2._wp_desired_speed_xy_cms s2._track_accel)

/-- Modelled from the spec: boundary velocity at the origin of a spline segment, part of
`set_spline_origin_and_destination` whose body is not in the header (§4.4: boundary
velocities come "from neighboring-segment context — straight-fast, spline-fast, or
stopped").  The cases follow the header comment on segment start types: "stop - vehicle is not moving at origin", "straight-fast - ... previous segment
is straight", "spline-fast - ... previous segment is splined" (`_flags.segment_type` "holds
whether prev segment is straight vs spline"). -/
def spline_origin_vel (s : State) (stopped_at_start : Bool) : Vector3f :=
  if stopped_at_start then Vector3f.zero
  else match s._flags.segment_type with
    | SegmentType.SEGMENT_STRAIGHT => s._destination.sub s._origin
    | SegmentType.SEGMENT_SPLINE => s._spline_destination_vel

/-- Modelled from the spec: boundary velocity at the destination of a spline segment, part of
`set_spline_origin_and_destination` whose body is not in the header.  The cases follow the
header comment on segment end types: "stop - vehicle is not moving at destination", "straight-fast - ...
directly along track from this segment's destination to next segment's destination",
"spline-fast - ... parallel to position difference vector from previous segment's origin to
this segment's destination". -/
def spline_destination_vel (origin destination next_destination : Vector3f) :
    spline_segment_end_type → Vector3f
  | spline_segment_end_type.SEGMENT_END_STOP => Vector3f.zero
  | spline_segment_end_type.SEGMENT_END_STRAIGHT => next_destination.sub destination
  | spline_segment_end_type.SEGMENT_END_SPLINE => next_destination.sub origin

/-- Modelled from the spec: `set_spline_origin_and_destination` is declared in the header
without a body.  §6: "`set_spline_segment(origin, destination, terrain_alt, stopped_at_start,
next_segment_kind, next_destination) -> bool`: boundary-velocity hints derived from neighbor
segment"; §4.4: "On segment start: ... solve the four Hermite coefficients"; §3: the spline
parameter "resets only when a new segment is set". -/
def set_spline_origin_and_destination (leash_of : ℝ → ℝ → ℝ) (s : State) (env : Env)
    (origin destination : Vector3f) (terrain_alt stopped_at_start : Bool)
    (seg_end_type : spline_segment_end_type) (next_destination : Vector3f) : Bool × State :=
  match (if terrain_alt then get_terrain_offset s env else some 0) with
  | none => (false, s)
  | some _ =>
    let origin_vel := spline_origin_vel s stopped_at_start
    let dest_vel := spline_destination_vel origin destination next_destination seg_end_type
    let s1 := set_segment_geometry s origin destination terrain_alt SegmentType.SEGMENT_SPLINE
    let s2 := { s1 with _spline_time := 0
                        _spline_origin_vel := origin_vel
                        _spline_destination_vel := dest_vel }
    let s3 := update_spline_solution s2 origin destination origin_vel dest_vel
    let s4 := calculate_wp_leash_length leash_of s3
    (true, calc_slow_down_distance s4 s4._wp_desired_speed_xy_cms s4._track_accel)

/-- Modelled from the spec: upper bound of the progress along the track, part of
`advance_wp_target_along_track` whose body is not in the header.  §4.3: progress is "clamped not to exceed
track length (unless `fast_waypoint`, which permits crossing into overshoot tolerance)". -/
def track_limit (s : State) : ℝ :=
  if s._flags.fast_waypoint then s._track_length + s._wp_fast_overshoot_max else s._track_length

/-- Modelled from the spec: vehicle position in the altitude frame of the segment, part of
`advance_wp_target_along_track` whose body is not in the header; the terrain offset is taken
off the vertical component (§4.5: terrain height is added to a height above terrain). -/
def position_in_segment_frame (env : Env) (terr_offset : ℝ) : Vector3f :=
  env.curr_pos.sub ⟨0, 0, terr_offset⟩

/-- Modelled from the spec: part of `advance_wp_target_along_track` whose body is not in the
header.  §4.3: "compute remaining distance to destination along the unit direction vector". -/
def remaining_distance (s : State) (curr : Vector3f) : ℝ :=
  (s._destination.sub curr).dot s._pos_delta_unit

/-- Modelled from the spec: part of `advance_wp_target_along_track` whose body is not in the
header.  How far along the track the vehicle is: the component of its position, taken from the
segment origin, along the unit direction vector (§4.3 measures distances "along the unit
direction vector"). -/
def track_covered (s : State) (curr : Vector3f) : ℝ :=
  (curr.sub s._origin).dot s._pos_delta_unit

/-- Modelled from the spec: part of `advance_wp_target_along_track` whose body is not in the
header.  §4.3: "derive crosstrack error as the perpendicular distance from true vehicle
position to the track line"; this is the vector from the closest point of the track line to
the vehicle. -/
def track_error (s : State) (curr : Vector3f) : Vector3f :=
  (curr.sub s._origin).sub (s._pos_delta_unit.smul (track_covered s curr))

/-- Modelled from the spec: part of `advance_wp_target_along_track` whose body is not in the
header.  Glossary: "Leash length: maximum permitted separation between true vehicle position
and the advancing intermediate target, bounding how far "ahead" the target may run."  The
farthest progress along the track at which the target is still one leash length away from the
vehicle: the leash is the hypotenuse, the crosstrack error one side, the slack along the track
the other side (no slack when the crosstrack error exceeds the leash). -/
def track_desired_max (s : State) (curr : Vector3f) : ℝ :=
  track_covered s curr
    + Real.sqrt (s._track_leash_length * s._track_leash_length
        - (track_error s curr).length * (track_error s curr).length)

/-- Modelled from the spec: part of `advance_wp_target_along_track` whose body is not in the
header.  Distance the target may still advance before it is one leash length ahead of the
vehicle; zero when the target is already at or beyond the end of the leash. -/
def leash_room (s : State) (curr : Vector3f) : ℝ :=
  max 0 (track_desired_max s curr - s._track_desired)

/-- Modelled from the spec: part of `advance_wp_target_along_track` whose body is not in the
header.  §4.3: "apply slow-down profile and leash limit to get allowed speed".  The allowed
speed is the smallest of the slow-down speed, the track speed computed by the kinematic limit
planner, and the speed at which the target uses up the room left on the leash (`room`) within
this tick of `dt` seconds. -/
def allowed_speed (s : State) (remaining room dt : ℝ) : ℝ :=
  min (min (get_slow_down_speed s remaining s._track_accel) s._track_speed) (room / dt)

/-- Modelled from the spec: part of the advance functions whose bodies are not in the header.
§4.3: "intermediate target has reached the destination-side leash bound": the progress along
the track is within one leash length of the end of the track. -/
def at_leash_bound (s : State) (progress : ℝ) : Bool :=
  decide (s._track_length - s._track_leash_length ≤ progress)

/-- Modelled from the spec: completion rule shared by both advance functions, whose bodies are
not in the header.  §4.3: "Sets `reached_destination` when remaining
distance < configured waypoint radius; sets `waypoint_completed` when `reached_destination`
OR (`fast_waypoint` AND intermediate target has reached the destination-side leash bound)."
The `new_destination` latch lasts one tick. -/
def completion_flags (f : wpnav_flags) (within_radius leash_bound_reached : Bool) : wpnav_flags :=
  { f with reached_destination := f.reached_destination || within_radius
           waypoint_completed :=
             f.waypoint_completed || (f.reached_destination || within_radius)
               || (f.fast_waypoint && leash_bound_reached)
           new_wp_destination := false }

/-- Modelled from the spec: `advance_wp_target_along_track(dt)` is declared in the header
without a body ("move target location along track from origin to destination").  §6:
"`advance(dt) -> bool`: fails if terrain data required for the *current* position cannot be
resolved; on success, updates all target/flag state."  §4.3: "Each tick: compute remaining
distance to destination along the unit direction vector; apply slow-down profile and leash
limit to get allowed speed; integrate progress-along-track by `speed · dt`, clamped not to
exceed track length (unless `fast_waypoint`, which permits crossing into overshoot
tolerance); derive target position = `origin + direction · progress`; derive crosstrack
error as the perpendicular distance from true vehicle position to the track line."  The yaw
target belongs to a separate component (§4.6) and is not touched here. -/
def advance_wp_target_along_track (s : State) (env : Env) (dt : ℝ) : Bool × State :=
  match resolve_terrain_offset s env with
  | none => (false, s)
  | some terr_offset =>
    let curr := position_in_segment_frame env terr_offset
    let remaining := remaining_distance s curr
    let speed := allowed_speed s remaining (leash_room s curr) dt
    let progress := min (s._track_desired + speed * dt) (track_limit s)
    let target := (s._origin.add (s._pos_delta_unit.smul progress)).add ⟨0, 0, terr_offset⟩
    let f := completion_flags s._flags (decide (remaining < s._wp_radius_cm))
      (at_leash_bound s progress)
    (true,
      { s with _track_desired := progress
               _limited_speed_xy_cms := speed
               _track_error_xy := (track_error s curr).length
               _pos_control := ⟨target, s._pos_delta_unit.smul speed⟩
               _flags := { f with slowing_down :=
                             f.slowing_down || decide (remaining ≤ s._slow_down_dist) } })

/-- Modelled from the spec: `advance_spline_target_along_track(dt)` is declared in the header
without a body ("returns false if it is unable to advance (most likely because of missing
terrain data)").  §4.4: "Each tick: advance `t` by `dt · time_scale / segment_duration_estimate`;
evaluate position and velocity by polynomial evaluation at current `t` ... if terrain data is
unavailable for the current tick, the advance call fails (returns failure) rather than
guessing a stale height.  Completion semantics mirror the straight tracker, evaluated against
cumulative arc-length progress rather than `t`".  §3: `t` stays within `[0,1]`.  The
specification does not say how `segment_duration_estimate` is obtained, so it is an argument;
the periodic recomputation of the time scale is likewise left open and not performed. -/
def advance_spline_target_along_track (segment_duration_estimate : ℝ) (s : State) (env : Env)
    (dt : ℝ) : Bool × State :=
  match resolve_terrain_offset s env with
  | none => (false, s)
  | some terr_offset =>
    let spline_time :=
      min 1 (s._spline_time + dt * s._spline_time_scale / segment_duration_estimate)
    let before := calc_spline_pos_vel s s._spline_time
    let now := calc_spline_pos_vel s spline_time
    let progress := s._track_desired + (now.1.sub before.1).length
    let remaining := s._track_length - progress
    let f := completion_flags s._flags (decide (remaining < s._wp_radius_cm))
      (at_leash_bound s progress)
    (true,
      { s with _spline_time := spline_time
               _track_desired := progress
               _pos_control := ⟨now.1.add ⟨0, 0, terr_offset⟩, now.2⟩
               _flags := { f with slowing_down :=
                             f.slowing_down || decide (remaining ≤ s._slow_down_dist) } })

/-- One tick of the straight tracker: the collaborator snapshot and the time step. -/
structure Tick where
  env : Env
  dt : ℝ

/-- State after a sequence of `advance_wp_target_along_track` calls. -/
def run_wp (s : State) : List Tick → State
  | [] => s
  | tk :: rest => run_wp (advance_wp_target_along_track s tk.env tk.dt).2 rest

/-- Values of `_track_desired` before the first call and after each call of a sequence of
`advance_wp_target_along_track` calls. -/
def track_desired_trace (s : State) : List Tick → List ℝ
  | [] => [s._track_desired]
  | tk :: rest =>
    s._track_desired :: track_desired_trace (advance_wp_target_along_track s tk.env tk.dt).2 rest

/-- The remaining distance is below the waypoint radius at this tick: the terrain offset can
be resolved and the remaining distance along the track is less than `_wp_radius_cm`. -/
def below_radius (s : State) (env : Env) : Prop :=
  ∃ terr_offset, resolve_terrain_offset s env = some terr_offset ∧
    remaining_distance s (position_in_segment_frame env terr_offset) < s._wp_radius_cm

/-- §3 invariant of a segment in flight: progress along the track is "bounded by track length
plus a small configured overshoot allowance for fast waypoints", and the track speed computed
by the planner is not negative.  The bound is the current track limit, which drops back to the
track length when the caller clears `fast_waypoint`. -/
def InSegment (s : State) : Prop :=
  s._track_desired ≤ track_limit s ∧ 0 ≤ s._track_speed

/-- One operation of the engine: the public contract of §6 and the inline mutators of the
header. -/
inductive Step : State → State → Prop where
  | set_wp_origin_and_destination (leash_of : ℝ → ℝ → ℝ) (s : State) (env : Env)
      (origin destination : Vector3f) (terrain_alt : Bool) :
      Step s (AC_WPNav.set_wp_origin_and_destination leash_of s env origin destination
        terrain_alt).2
  | set_spline_origin_and_destination (leash_of : ℝ → ℝ → ℝ) (s : State) (env : Env)
      (origin destination : Vector3f) (terrain_alt stopped_at_start : Bool)
      (seg_end_type : spline_segment_end_type) (next_destination : Vector3f) :
      Step s (AC_WPNav.set_spline_origin_and_destination leash_of s env origin destination
        terrain_alt stopped_at_start seg_end_type next_destination).2
  | advance_wp_target_along_track (s : State) (env : Env) (dt : ℝ) :
      Step s (AC_WPNav.advance_wp_target_along_track s env dt).2
  | advance_spline_target_along_track (segment_duration_estimate : ℝ) (s : State) (env : Env)
      (dt : ℝ) :
      Step s (AC_WPNav.advance_spline_target_along_track segment_duration_estimate s env dt).2
  | check_wp_leash_length (leash_of : ℝ → ℝ → ℝ) (s : State) :
      Step s (AC_WPNav.check_wp_leash_length leash_of s)
  | set_speed_xy (s : State) (speed_cms : ℝ) : Step s (AC_WPNav.set_speed_xy s speed_cms)
  | set_speed_up (s : State) (speed_cms : ℝ) : Step s (AC_WPNav.set_speed_up s speed_cms)
  | set_speed_down (s : State) (speed_cms : ℝ) : Step s (AC_WPNav.set_speed_down s speed_cms)
  | set_fast_waypoint (s : State) (fast : Bool) : Step s (AC_WPNav.set_fast_waypoint s fast)
  | set_execute_do_cmds_before_next_nav (s : State) (b : Bool) :
      Step s (AC_WPNav.set_execute_do_cmds_before_next_nav s b)
  | resetReachedPreviousWaypoint (s : State) : Step s (AC_WPNav.resetReachedPreviousWaypoint s)
  | set_rangefinder_alt (s : State) (use healthy : Bool) (alt_cm : ℝ) :
      Step s (AC_WPNav.set_rangefinder_alt s use healthy alt_cm)

/-- States the engine can be in after any finite sequence of operations from `s0`. -/
def Reachable (s0 s : State) : Prop := Relation.ReflTransGen Step s0 s

/-- An engine on which no segment has been commanded yet (§4.7, state `idle`): neither arrival
flag is set. -/
def Idle (s : State) : Prop :=
  s._flags.reached_destination = false ∧ s._flags.waypoint_completed = false

end

/-! ## Concrete states used by examples -/

/-- Flags with every bit cleared and a straight segment type. -/
def flags_cleared : wpnav_flags :=
  { do_cmds_before_next_nav := false, waypoint_completed := false, reached_destination := false,
    reached_previous_wpt := false, fast_waypoint := false, slowing_down := false,
    recalc_wp_leash := false, new_wp_destination := false,
    segment_type := SegmentType.SEGMENT_STRAIGHT, wp_yaw_set := false }

/-- An engine with the header defaults for speed, acceleration and radius, flags cleared and
no segment set. -/
def idle_default : State :=
  { _flags := flags_cleared
    _pos_control := ⟨Vector3f.zero, Vector3f.zero⟩
    _wp_speed_cms := 500
    _wp_speed_up_cms := 250
    _wp_speed_down_cms := 150
    _wp_radius_cm := 200
    _wp_accel_cmss := 100
    _wp_accel_z_cmss := 100
    _wp_desired_speed_xy_cms := 500
    _origin := Vector3f.zero
    _destination := Vector3f.zero
    _pos_delta_unit := Vector3f.zero
    _track_error_xy := 0
    _track_length := 0
    _track_length_xy := 0
    _track_desired := 0
    _limited_speed_xy_cms := 0
    _track_accel := 0
    _track_speed := 0
    _track_leash_length := 0
    _slow_down_dist := 0
    _spline_time := 0
    _spline_time_scale := 0
    _spline_origin_vel := Vector3f.zero
    _spline_destination_vel := Vector3f.zero
    _hermite_spline_solution := fun _ => Vector3f.zero
    _spline_vel_scaler := 0
    _yaw := 0
    _terrain_alt := false
    _rangefinder_available := false
    _rangefinder_use := 0
    _rangefinder_healthy := false
    _rangefinder_alt_cm := 0
    _wp_fast_overshoot_max := 20 }

/-- Engine with a destination 300 cm north and 400 cm east of the EKF origin and a waypoint
radius of 500 cm. -/
def at_radius_state : State :=
  { idle_default with _destination := ⟨300, 400, 0⟩, _wp_radius_cm := 500 }

/-- Vehicle at the EKF origin, terrain database without data. -/
def env_at_origin : Env := ⟨Vector3f.zero, none⟩

/-- Engine flying a terrain-relative segment, rangefinder not in use. -/
def terrain_segment_state : State :=
  { idle_default with _terrain_alt := true }

/-- Leash function of the examples: a leash of 300 cm whatever the speed and acceleration. -/
def leash_300 : ℝ → ℝ → ℝ := fun _ _ => 300

/-- Destination of the example segment: 800 cm north of the EKF origin. -/
def track_end : Vector3f := ⟨800, 0, 0⟩

/-- Vehicle at the destination of the example segment, terrain database without data. -/
def env_at_track_end : Env := ⟨track_end, none⟩

/-- A straight segment of 800 cm commanded on the default engine. -/
noncomputable def segment_start : State :=
  (set_wp_origin_and_destination leash_300 idle_default env_at_origin Vector3f.zero track_end
    false).2

/-- The example segment after one tick with the vehicle at its destination. -/
noncomputable def arrived_state : State :=
  (advance_wp_target_along_track segment_start env_at_track_end 1).2

/-- The same segment commanded after `set_fast_waypoint(true)`. -/
noncomputable def fast_segment_start : State :=
  (set_wp_origin_and_destination leash_300 (set_fast_waypoint idle_default true) env_at_origin
    Vector3f.zero track_end false).2

/-- The fast segment after one tick of one second with the vehicle still at the origin. -/
noncomputable def fast_after_one_tick : State :=
  (advance_wp_target_along_track fast_segment_start env_at_origin 1).2

/-- Vehicle on the line of the example track, `x` cm from the origin, terrain database without
data. -/
def env_on_track (x : ℝ) : Env := ⟨⟨x, 0, 0⟩, none⟩

/-- The fast segment after a second tick of one second, the vehicle now 350 cm along the
track. -/
noncomputable def fast_after_two_ticks : State :=
  (advance_wp_target_along_track fast_after_one_tick (env_on_track 350) 1).2

/-- The fast segment after a third tick of one second, the vehicle now 600 cm along the
track. -/
noncomputable def fast_after_three_ticks : State :=
  (advance_wp_target_along_track fast_after_two_ticks (env_on_track 600) 1).2

/-- The fast segment after a fourth tick of one second, the vehicle still 600 cm along the
track: the target is in the overshoot allowance beyond the destination. -/
noncomputable def fast_overshoot : State :=
  (advance_wp_target_along_track fast_after_three_ticks (env_on_track 600) 1).2

/-- The caller calls `set_fast_waypoint(false)` on the same segment while the target is in the
overshoot allowance. -/
noncomputable def fast_cleared_in_overshoot : State := set_fast_waypoint fast_overshoot false

/-- The state flies the example track (800 cm along x from the EKF origin, no terrain
following) with the limits of the default engine: track speed 400, acceleration 100, cruise
speed 500, overshoot allowance 20, leash 300, radius 200. -/
def OnExampleTrack (s : State) : Prop :=
  s._terrain_alt = false ∧ s._origin = Vector3f.zero ∧ s._destination = track_end ∧
    s._pos_delta_unit = ⟨1, 0, 0⟩ ∧ s._track_speed = 400 ∧ s._track_accel = 100 ∧
    s._wp_desired_speed_xy_cms = 500 ∧ s._track_length = 800 ∧
    s._wp_fast_overshoot_max = 20 ∧ s._track_leash_length = 300 ∧ s._wp_radius_cm = 200

/-- Destination of the scenario segment of §8: 1000 cm north of the EKF origin. -/
def track_end_1000 : Vector3f := ⟨1000, 0, 0⟩

/-- The scenario segment of §8: 1000 cm commanded on the default engine (cruise speed
500 cm/s, acceleration 100 cm/s², radius 200 cm). -/
noncomputable def segment_1000 : State :=
  (set_wp_origin_and_destination leash_300 idle_default env_at_origin Vector3f.zero
    track_end_1000 false).2

end AC_WPNav

/-!
# AC_Sprayer: crop sprayer

The inline accessors of `libraries/AC_Sprayer/AC_Sprayer.h`.  The bodies of `run` and `update`
are not in the header; callers see `run` as an operation supplied from outside.
-/

namespace AC_Sprayer

/-- Bitfield struct `AC_Sprayer::sprayer_flags_type`; every one-bit field is a `Bool`. -/
structure sprayer_flags_type where
  spraying : Bool
  testing : Bool
  running : Bool
  ignore_heading_check : Bool
  deriving DecidableEq, Repr

/-- Data members of `class AC_Sprayer` read by the inline accessors. -/
structure State where
  _flags : sprayer_flags_type
  deriving DecidableEq, Repr

/-- Source: `bool running() const { return _flags.running; }`. -/
def running (s : State) : Bool := s._flags.running

/-- Source: `bool spraying() const { return _flags.spraying; }`. -/
def spraying (s : State) : Bool := s._flags.spraying

/-- Source: `void test_pump(bool true_false) { _flags.testing = true_false; }`. -/
def test_pump (s : State) (true_false : Bool) : State :=
  { s with _flags := { s._flags with testing := true_false } }

end AC_Sprayer

/-!
# AP_Mission: mission command starters

A shallow embedding of `libraries/AP_Mission/AP_Mission_Commands.cpp`.

* The collaborators (`AP::gripper()`, `AP::servorelayevents()`, `AP::sprayer()`,
  `AP::camera()`, `AP::parachute()`) are pointers that may be null; the embedding is told
  which of them are available and records every operation invoked on a collaborator, in
  order, as a list of `Call`s.
* The numeric values of the MAVLink enumerations and the build target come from headers
  outside these sources; they are the fields of `Build`.  A `switch` is the chain of
  comparisons with its case labels in source order.
* `AP_HAL::panic` does not return: an outcome without a result.
* Integer fields of a mission command are integers, `float` fields are rationals (exact
  arithmetic), the `content` union is the record of its members.
-/

namespace AP_Mission

/-- Compile-time configuration and enumeration values defined outside these sources. -/
structure Build where
  /-- The condition `CONFIG_HAL_BOARD == HAL_BOARD_SITL`. -/
  CONFIG_HAL_BOARD_SITL : Bool
  GRIPPER_ACTION_RELEASE : ℤ
  GRIPPER_ACTION_GRAB : ℤ
  MAV_CMD_DO_SET_SERVO : ℤ
  MAV_CMD_DO_SET_RELAY : ℤ
  MAV_CMD_DO_REPEAT_SERVO : ℤ
  MAV_CMD_DO_REPEAT_RELAY : ℤ
  MAV_CMD_USER_1 : ℤ
  MAV_CMD_DO_DIGICAM_CONFIGURE : ℤ
  MAV_CMD_DO_DIGICAM_CONTROL : ℤ
  MAV_CMD_DO_SET_CAM_TRIGG_DIST : ℤ
  PARACHUTE_DISABLE : ℤ
  PARACHUTE_ENABLE : ℤ
  PARACHUTE_RELEASE : ℤ
  MAV_FRAME_GLOBAL : ℤ
  MAV_FRAME_GLOBAL_RELATIVE_ALT : ℤ
  MAV_FRAME_GLOBAL_TERRAIN_ALT : ℤ

/-- Fields of `Location` read through `cmd.content.location`. -/
structure Location where
  lat : ℤ
  lng : ℤ
  alt : ℤ
  relative_alt : Bool
  terrain_alt : Bool
  deriving DecidableEq, Repr

/-- Member `content.gripper`. -/
structure Gripper_Command where
  action : ℤ
  deriving DecidableEq, Repr

/-- Member `content.servo`. -/
structure Set_Servo_Command where
  channel : ℤ
  pwm : ℤ
  deriving DecidableEq, Repr

/-- Member `content.relay`. -/
structure Set_Relay_Command where
  num : ℤ
  state : ℤ
  deriving DecidableEq, Repr

/-- Member `content.repeat_servo`. -/
structure Repeat_Servo_Command where
  channel : ℤ
  pwm : ℤ
  repeat_count : ℤ
  cycle_time : ℚ
  deriving DecidableEq, Repr

/-- Member `content.repeat_relay`. -/
structure Repeat_Relay_Command where
  num : ℤ
  repeat_count : ℤ
  cycle_time : ℚ
  deriving DecidableEq, Repr

/-- Member `content.user1`. -/
structure User1_Command where
  param1 : ℚ
  param2 : ℚ
  param3 : ℚ
  deriving DecidableEq, Repr

/-- Member `content.digicam_configure`. -/
structure Digicam_Configure where
  shooting_mode : ℤ
  shutter_speed : ℤ
  aperture : ℤ
  ISO : ℤ
  exposure_type : ℤ
  cmd_id : ℤ
  engine_cutoff_time : ℤ
  deriving DecidableEq, Repr

/-- Member `content.digicam_control`. -/
structure Digicam_Control where
  session : ℤ
  zoom_pos : ℤ
  zoom_step : ℤ
  focus_lock : ℤ
  shooting_cmd : ℤ
  cmd_id : ℤ
  deriving DecidableEq, Repr

/-- Member `content.cam_trigg_dist`. -/
structure Cam_Trigg_Distance where
  meters : ℚ
  deriving DecidableEq, Repr

/-- The members of the union `Mission_Command::content` that the sources read. -/
structure Content where
  gripper : Gripper_Command
  servo : Set_Servo_Command
  relay : Set_Relay_Command
  repeat_servo : Repeat_Servo_Command
  repeat_relay : Repeat_Relay_Command
  user1 : User1_Command
  digicam_configure : Digicam_Configure
  digicam_control : Digicam_Control
  cam_trigg_dist : Cam_Trigg_Distance
  location : Location
  deriving DecidableEq, Repr

/-- Fields of `AP_Mission::Mission_Command` that the sources read. -/
structure Mission_Command where
  id : ℤ
  p1 : ℤ
  content : Content
  deriving DecidableEq, Repr

/-- Which collaborator pointers are non-null. -/
structure Singletons where
  gripper : Bool
  servorelayevents : Bool
  sprayer : Bool
  camera : Bool
  parachute : Bool
  deriving DecidableEq, Repr

/-- An operation invoked on a collaborator. -/
inductive Call where
  | gripper_release
  | gripper_grab
  | gcs_send_text (text : String)
  | sre_do_set_servo (channel pwm : ℤ)
  | sre_do_set_relay (num state : ℤ)
  | sre_do_repeat_servo (channel pwm repeat_count : ℤ) (cycle_time_ms : ℚ)
  | sre_do_repeat_relay (num repeat_count : ℤ) (cycle_time_ms : ℚ)
  | sprayer_run (true_false ignore_heading_checks : Bool)
  | camera_configure (shooting_mode shutter_speed aperture ISO exposure_type cmd_id
      engine_cutoff_time : ℤ)
  | camera_control (session zoom_pos zoom_step focus_lock shooting_cmd cmd_id : ℤ)
  | camera_set_trigger_distance (meters : ℚ)
  | parachute_enabled (on_off : Bool)
  | parachute_release
  | hal_panic (message : String)
  deriving DecidableEq, Repr

/-- What a command starter did: the collaborator operations it invoked, in order, and the
value it returned (`none` when it ended in `AP_HAL::panic`, which does not return). -/
structure Outcome where
  calls : List Call
  result : Option Bool
  deriving DecidableEq, Repr

/-- The `default:` branch shared by the gripper, servo/relay and camera starters: a panic on
the SITL board, `return false` on every other board. -/
def unhandled_case (b : Build) (done : List Call) (message : String) : Outcome :=
  if b.CONFIG_HAL_BOARD_SITL then ⟨done ++ [Call.hal_panic message], none⟩
  else ⟨done, some false⟩

/-- Source: `bool AP_Mission::start_command_do_gripper(const Mission_Command& cmd)`. -/
def start_command_do_gripper (b : Build) (ap : Singletons) (cmd : Mission_Command) : Outcome :=
  if ap.gripper = false then ⟨[], some false⟩
  else if cmd.content.gripper.action = b.GRIPPER_ACTION_RELEASE then
    ⟨[Call.gripper_release, Call.gcs_send_text "Gripper Released"], some true⟩
  else if cmd.content.gripper.action = b.GRIPPER_ACTION_GRAB then
    ⟨[Call.gripper_grab, Call.gcs_send_text "Gripper Grabbed"], some true⟩
  else unhandled_case b [] "Unhandled gripper case"

/-- Source: `bool AP_Mission::start_command_do_servorelayevents(const Mission_Command& cmd)`. -/
def start_command_do_servorelayevents (b : Build) (ap : Singletons) (cmd : Mission_Command) :
    Outcome :=
  if ap.servorelayevents = false then ⟨[], some false⟩
  else if cmd.id = b.MAV_CMD_DO_SET_SERVO then
    ⟨[Call.sre_do_set_servo cmd.content.servo.channel cmd.content.servo.pwm], some true⟩
  else if cmd.id = b.MAV_CMD_DO_SET_RELAY then
    ⟨[Call.sre_do_set_relay cmd.content.relay.num cmd.content.relay.state], some true⟩
  else if cmd.id = b.MAV_CMD_DO_REPEAT_SERVO then
    ⟨[Call.sre_do_repeat_servo cmd.content.repeat_servo.channel cmd.content.repeat_servo.pwm
        cmd.content.repeat_servo.repeat_count (cmd.content.repeat_servo.cycle_time * 1000)],
      some true⟩
  else if cmd.id = b.MAV_CMD_DO_REPEAT_RELAY then
    ⟨[Call.sre_do_repeat_relay cmd.content.repeat_relay.num
        cmd.content.repeat_relay.repeat_count (cmd.content.repeat_relay.cycle_time * 1000)],
      some true⟩
  else unhandled_case b [] "Unhandled servo/relay case"

/-- Source: `bool AP_Mission::start_command_user_1(const Mission_Command &cmd)`. -/
def start_command_user_1 (b : Build) (ap : Singletons) (cmd : Mission_Command) : Outcome :=
  if cmd.id = b.MAV_CMD_USER_1 then
    if ap.sprayer = false then ⟨[], some false⟩
    else
      ⟨[Call.sprayer_run (decide (cmd.p1 > 0)) (decide (cmd.content.user1.param3 > 0))],
        some true⟩
  else ⟨[], some false⟩

/-- Source: `bool AP_Mission::start_command_user_2(const Mission_Command &cmd)`. -/
def start_command_user_2 (_cmd : Mission_Command) : Outcome := ⟨[], some false⟩

/-- Source: `bool AP_Mission::start_command_user_3(const Mission_Command &cmd)`. -/
def start_command_user_3 (_cmd : Mission_Command) : Outcome := ⟨[], some false⟩

/-- Source: `bool AP_Mission::start_command_camera(const Mission_Command& cmd)`. -/
def start_command_camera (b : Build) (ap : Singletons) (cmd : Mission_Command) : Outcome :=
  if ap.camera = false then ⟨[], some false⟩
  else if cmd.id = b.MAV_CMD_DO_DIGICAM_CONFIGURE then
    ⟨[Call.camera_configure cmd.content.digicam_configure.shooting_mode
        cmd.content.digicam_configure.shutter_speed cmd.content.digicam_configure.aperture
        cmd.content.digicam_configure.ISO cmd.content.digicam_configure.exposure_type
        cmd.content.digicam_configure.cmd_id
        cmd.content.digicam_configure.engine_cutoff_time], some true⟩
  else if cmd.id = b.MAV_CMD_DO_DIGICAM_CONTROL then
    ⟨[Call.camera_control cmd.content.digicam_control.session
        cmd.content.digicam_control.zoom_pos cmd.content.digicam_control.zoom_step
        cmd.content.digicam_control.focus_lock cmd.content.digicam_control.shooting_cmd
        cmd.content.digicam_control.cmd_id], some true⟩
  else if cmd.id = b.MAV_CMD_DO_SET_CAM_TRIGG_DIST then
    ⟨[Call.camera_set_trigger_distance cmd.content.cam_trigg_dist.meters], some true⟩
  else unhandled_case b [] "Unhandled camera case"

/-- Source: `bool AP_Mission::start_command_parachute(const Mission_Command& cmd)`. -/
def start_command_parachute (b : Build) (ap : Singletons) (cmd : Mission_Command) : Outcome :=
  if ap.parachute = false then ⟨[], some false⟩
  else if cmd.p1 = b.PARACHUTE_DISABLE then ⟨[Call.parachute_enabled false], some true⟩
  else if cmd.p1 = b.PARACHUTE_ENABLE then ⟨[Call.parachute_enabled true], some true⟩
  else if cmd.p1 = b.PARACHUTE_RELEASE then ⟨[Call.parachute_release], some true⟩
  else ⟨[], some false⟩

/-- What the sources observe of the mission object (`copter.mode_auto.mission`, also
`AP_Mission::get_singleton()`) through member functions whose bodies are outside these
sources; each field is the value the member function of the same name returns. -/
structure State where
  get_prev_nav_cmd_with_wp_index : ℕ
  get_current_nav_index : ℕ
  num_commands : ℕ
  num_commands_max : ℕ
  read_cmd_from_storage : ℤ → Mission_Command
  is_do_commands_all_done : Bool

/-- The enumeration values of the MAVLink headers, on a flight board. -/
def mavlink_build : Build :=
  { CONFIG_HAL_BOARD_SITL := false
    GRIPPER_ACTION_RELEASE := 0
    GRIPPER_ACTION_GRAB := 1
    MAV_CMD_DO_SET_SERVO := 183
    MAV_CMD_DO_SET_RELAY := 181
    MAV_CMD_DO_REPEAT_SERVO := 184
    MAV_CMD_DO_REPEAT_RELAY := 182
    MAV_CMD_USER_1 := 31010
    MAV_CMD_DO_DIGICAM_CONFIGURE := 202
    MAV_CMD_DO_DIGICAM_CONTROL := 203
    MAV_CMD_DO_SET_CAM_TRIGG_DIST := 206
    PARACHUTE_DISABLE := 0
    PARACHUTE_ENABLE := 1
    PARACHUTE_RELEASE := 2
    MAV_FRAME_GLOBAL := 0
    MAV_FRAME_GLOBAL_RELATIVE_ALT := 3
    MAV_FRAME_GLOBAL_TERRAIN_ALT := 10 }

/-- No collaborator is available. -/
def no_singletons : Singletons :=
  { gripper := false, servorelayevents := false, sprayer := false, camera := false,
    parachute := false }

/-- A mission command with every field zero and the given id and first parameter. -/
def blank_command (id p1 : ℤ) : Mission_Command :=
  { id := id
    p1 := p1
    content :=
      { gripper := ⟨0⟩
        servo := ⟨0, 0⟩
        relay := ⟨0, 0⟩
        repeat_servo := ⟨0, 0, 0, 0⟩
        repeat_relay := ⟨0, 0, 0⟩
        user1 := ⟨0, 0, 0⟩
        digicam_configure := ⟨0, 0, 0, 0, 0, 0, 0⟩
        digicam_control := ⟨0, 0, 0, 0, 0, 0⟩
        cam_trigg_dist := ⟨0⟩
        location := ⟨0, 0, 0, false, false⟩ } }

end AP_Mission

namespace AC_WPNav

/-- Source: `bool is_waiting_for_do_cmds(){return
!AP_Mission::get_singleton()->is_do_commands_all_done(); }`.  The mission singleton is the
argument `mission`. -/
def is_waiting_for_do_cmds (_s : State) (mission : AP_Mission.State) : Bool :=
  !mission.is_do_commands_all_done

end AC_WPNav

/-!
# Copter: tank sensor task

A shallow embedding of `Copter::update_tank_sensor`, `Copter::BrakeAndInsertResumePointIfNeeded`
and `Copter::get_tank_sensor_status` of `ArduCopter/Copter.cpp`.

* `State` holds the data members of `class Copter` these functions touch.  The function-local
  `static bool inBootDelay` of `update_tank_sensor` persists between calls and is visible to
  no other function: it is passed in and returned next to the state.
* Operations whose bodies are outside these sources (`Copter::set_mode`, the resume point
  creator, `AC_Sprayer::run`) are the fields of `Externals`: arbitrary state transformers.
* What a call reads from the hardware abstraction layer and the active flight mode is the
  record `Reads`.
* Every effect a function body has on the outside world is recorded, in order, as a list of
  `Event`s.
-/

namespace Copter

/-- Enum `TankSensorState`. -/
inductive TankSensorState where
  | SENSOR_UNAVAILABLE
  | TANK_FULL
  | TANK_EMPTY
  deriving DecidableEq, Repr

/-- Enum `Mode::Number`: the three modes named in the sources, and any other mode. -/
inductive ModeNumber where
  | STABILIZE
  | AUTO
  | BRAKE
  | other (number : ℕ)
  deriving DecidableEq, Repr

/-- Enum `ModeReason`: the reason named in the sources, and any other reason. -/
inductive ModeReason where
  | FAILSAFE
  | other (number : ℕ)
  deriving DecidableEq, Repr

/-- Data members of `class Copter` used by the tank sensor task.  `pvtank_pin` is the
parameter `g.pvtank_pin`, `mission` is `mode_auto.mission`, `wp_nav` is `*wp_nav`. -/
structure State where
  control_mode : ModeNumber
  _tank_sensor_status : TankSensorState
  pvtank_pin : ℤ
  wp_nav : AC_WPNav.State
  sprayer : AC_Sprayer.State
  mission : AP_Mission.State

/-- Operations called by the tank sensor task whose bodies are outside these sources. -/
structure Externals where
  /-- The call `set_mode(mode, reason)`; its boolean result is ignored by the caller. -/
  set_mode : State → ModeNumber → ModeReason → State
  /-- The call `resumeMaker.CreateResumePointAtCurrentUavLocationAndState()` on a creator
  built from the mission, AHRS and sprayer singletons; the `ERRCODE` result as an integer. -/
  CreateResumePointAtCurrentUavLocationAndState : State → ℤ × State
  /-- The call `sprayer.run(true_false, ignore_heading_checks)`. -/
  sprayer_run : AC_Sprayer.State → Bool → Bool → AC_Sprayer.State

/-- What one call of `update_tank_sensor` reads from outside: `hal.gpio->read(pin)` (a
`uint8_t`), `millis()` (a `uint32_t`, milliseconds since boot), `flightmode->is_taking_off()`
and `flightmode->is_landing()`. -/
structure Reads where
  gpio_read : ℕ → ℕ
  millis : ℕ
  is_taking_off : Bool
  is_landing : Bool

/-- An effect on the outside world. -/
inductive Event where
  | hal_console_printf (format : String) (arguments : List ℤ)
  | printf (format : String)
  | gpio_pinMode_input (pin : ℕ)
  | set_mode (mode : ModeNumber) (reason : ModeReason)
  | CreateResumePointAtCurrentUavLocationAndState
  | sprayer_run (true_false ignore_heading_checks : Bool)
  | send_resume_point_details_back_to_gcs (current_wp_idx newMissionSize lat lng alt
      mavlink_altitude_frame_being_used spray_state : ℤ)
  deriving DecidableEq, Repr

/-- The event is a call of `set_mode`. -/
def Event.is_set_mode : Event → Bool
  | Event.set_mode _ _ => true
  | _ => false

/-- Source: `TankSensorState Copter::get_tank_sensor_status()`. -/
def get_tank_sensor_status (c : State) : TankSensorState := c._tank_sensor_status

/-- The local `curnavidx` of `BrakeAndInsertResumePointIfNeeded`: `int curnavidx = -1;
if(copter.control_mode == Mode::Number::AUTO){ curnavidx =
copter.mode_auto.mission.get_prev_nav_cmd_with_wp_index(); }`. -/
def curnavidx (c : State) : ℤ :=
  if c.control_mode = ModeNumber.AUTO then (c.mission.get_prev_nav_cmd_with_wp_index : ℤ)
  else -1

/-- The local `mavlink_altitude_frame_being_used` of `BrakeAndInsertResumePointIfNeeded`,
computed from the location of the checked command. -/
def mavlink_altitude_frame_being_used (b : AP_Mission.Build) (loc : AP_Mission.Location) : ℤ :=
  if loc.relative_alt then b.MAV_FRAME_GLOBAL_RELATIVE_ALT
  else if loc.terrain_alt then b.MAV_FRAME_GLOBAL_TERRAIN_ALT
  else b.MAV_FRAME_GLOBAL

/-- The statements of `BrakeAndInsertResumePointIfNeeded` after the two early returns, from
`int current_wp_idx = ...` to the end of the function.  `wasSpraying` was read on entry, `c`
is the state after the mode switch. -/
def insert_resume_point (x : Externals) (b : AP_Mission.Build) (wasSpraying : Bool) (c : State) :
    State × List Event :=
  let current_wp_idx : ℤ := c.mission.get_current_nav_index
  let oMissionSize : ℤ := c.mission.num_commands
  if oMissionSize < c.mission.num_commands_max then
    let created := x.CreateResumePointAtCurrentUavLocationAndState c
    let result := created.1
    let c2 := { created.2 with sprayer := x.sprayer_run created.2.sprayer false false }
    let done := [Event.CreateResumePointAtCurrentUavLocationAndState,
      Event.sprayer_run false false]
    if result > 0 then
      let newMissionSize : ℤ := c2.mission.num_commands
      let chkCmd := c2.mission.read_cmd_from_storage current_wp_idx
      let frame := mavlink_altitude_frame_being_used b chkCmd.content.location
      let printed := done ++
        [Event.hal_console_printf "Resumepoint created successful, sending cmd..." [],
          Event.printf "resumepoint created successful, sending cmd..."]
      if newMissionSize ≠ oMissionSize then
        (c2, printed ++
          [Event.send_resume_point_details_back_to_gcs current_wp_idx newMissionSize
            chkCmd.content.location.lat chkCmd.content.location.lng
            chkCmd.content.location.alt frame (if wasSpraying then 1 else 0)])
      else (c2, printed)
    else (c2, done)
  else
    (c, [Event.hal_console_printf "Resume point creation failed!\n" [],
      Event.printf "resume point creation failed!\n"])

/-- Source: `void Copter::BrakeAndInsertResumePointIfNeeded()`. -/
def BrakeAndInsertResumePointIfNeeded (x : Externals) (b : AP_Mission.Build) (c : State) :
    State × List Event :=
  let entry := [Event.hal_console_printf "BrakeAndInsertResumePointIfNeeded\n" [],
    Event.printf "BrakeAndInsertResumePointIfNeeded\n"]
  let wasSpraying := AC_Sprayer.spraying c.sprayer
  let idx := curnavidx c
  let c1 := x.set_mode c ModeNumber.BRAKE ModeReason.FAILSAFE
  let switched := entry ++ [Event.set_mode ModeNumber.BRAKE ModeReason.FAILSAFE]
  if !AC_WPNav.reached_prev_wpt c1.wp_nav then
    (c1, switched ++
      [Event.hal_console_printf "Not yet reached prev_wpt, skipping resume generaton\n" []])
  else
    let checked := switched ++
      [Event.hal_console_printf "prev_wpt is true, checking takeoff condition...\n" [],
        Event.hal_console_printf "current_nav_index is %d\n" [idx]]
    if idx ≤ 3 then
      (c1, checked ++
        [Event.hal_console_printf "still in takeoff waypoint command range, skipping resume"
          []])
    else
      let rest := insert_resume_point x b wasSpraying c1
      (rest.1, checked ++ rest.2)

/-- Result of one call of `update_tank_sensor`: the value of the static `inBootDelay`, the
state of the vehicle and the effects of the call. -/
structure Updated where
  inBootDelay : Bool
  copter : State
  trace : List Event

/-- Source: `void Copter::update_tank_sensor()`.  The argument `inBootDelay` is the value of
the function-local static at entry (`true` at boot). -/
def update_tank_sensor (x : Externals) (b : AP_Mission.Build) (inBootDelay : Bool) (c : State)
    (r : Reads) : Updated :=
  if c.pvtank_pin ≤ 0 then ⟨inBootDelay, c, []⟩
  else
    let pin := c.pvtank_pin.toNat % 256
    let pin_state := r.gpio_read pin
    let configured := [Event.gpio_pinMode_input pin]
    let status :=
      if pin_state > 0 then TankSensorState.TANK_FULL else TankSensorState.TANK_EMPTY
    if c._tank_sensor_status = TankSensorState.TANK_FULL ∧ pin_state = 0 then
      let inBootDelay1 := if inBootDelay = true ∧ r.millis > 20000 then false else inBootDelay
      if inBootDelay1 = false then
        if c.control_mode = ModeNumber.AUTO then
          if r.is_taking_off = false ∧ r.is_landing = false then
            if c.control_mode ≠ ModeNumber.BRAKE then
              let braked := BrakeAndInsertResumePointIfNeeded x b c
              ⟨inBootDelay1, { braked.1 with _tank_sensor_status := status },
                configured ++ braked.2⟩
            else ⟨inBootDelay1, { c with _tank_sensor_status := status }, configured⟩
          else ⟨inBootDelay1, { c with _tank_sensor_status := status }, configured⟩
        else ⟨inBootDelay1, { c with _tank_sensor_status := status }, configured⟩
      else ⟨inBootDelay1, { c with _tank_sensor_status := status }, configured⟩
    else ⟨inBootDelay, { c with _tank_sensor_status := status }, configured⟩

/-- The function `BrakeAndInsertResumePointIfNeeded` was entered: its first statement, the
console line with its name, is among the effects. -/
def BrakeInvoked (trace : List Event) : Prop :=
  Event.hal_console_printf "BrakeAndInsertResumePointIfNeeded\n" [] ∈ trace

/-- One scheduler slot of the tank sensor task: whatever other code did to the vehicle since
the previous call, and what the call reads. -/
structure Slot where
  other_code : State → State
  reads : Reads

/-- The static `inBootDelay` and the vehicle state after a sequence of calls of
`update_tank_sensor`, each preceded by the other code of its slot. -/
def run_tank_sensor (x : Externals) (b : AP_Mission.Build) (inBootDelay : Bool) (c : State) :
    List Slot → Bool × State
  | [] => (inBootDelay, c)
  | slot :: rest =>
    let u := update_tank_sensor x b inBootDelay (slot.other_code c) slot.reads
    run_tank_sensor x b u.inBootDelay u.copter rest

/-! ## Concrete vehicles used by examples -/

/-- A mission of ten commands out of at most a hundred, flying towards command 6 after
command 5, with blank commands in storage. -/
def example_mission : AP_Mission.State :=
  { get_prev_nav_cmd_with_wp_index := 5
    get_current_nav_index := 6
    num_commands := 10
    num_commands_max := 100
    read_cmd_from_storage := fun _ => AP_Mission.blank_command 16 0
    is_do_commands_all_done := true }

/-- A vehicle in AUTO with a full tank on pin 54, spraying, the previous waypoint reached. -/
def auto_full_tank : State :=
  { control_mode := ModeNumber.AUTO
    _tank_sensor_status := TankSensorState.TANK_FULL
    pvtank_pin := 54
    wp_nav := { AC_WPNav.idle_default with
      _flags := { AC_WPNav.flags_cleared with reached_previous_wpt := true } }
    sprayer := ⟨⟨true, false, true, false⟩⟩
    mission := example_mission }

/-- External operations of the examples: the mode switch succeeds, the creator inserts three
commands and reports success, `run` stores its first argument in both sprayer flags. -/
def example_externals : Externals :=
  { set_mode := fun c mode _ => { c with control_mode := mode }
    CreateResumePointAtCurrentUavLocationAndState := fun c =>
      (1, { c with mission := { c.mission with num_commands := c.mission.num_commands + 3 } })
    sprayer_run := fun s true_false ignore =>
      { s with _flags := { s._flags with running := true_false, spraying := true_false,
                                         ignore_heading_check := ignore } } }

/-- The pin reads low 25 seconds after boot, the vehicle is neither taking off nor landing. -/
def low_reading_after_boot : Reads :=
  { gpio_read := fun _ => 0, millis := 25000, is_taking_off := false, is_landing := false }

/-- The same vehicle in STABILIZE. -/
def stabilize_full_tank : State := { auto_full_tank with control_mode := ModeNumber.STABILIZE }

/-- The same vehicle without a configured tank pin. -/
def no_tank_pin : State := { auto_full_tank with pvtank_pin := 0 }

/-- A slot in which no other code touches the vehicle and the pin reads low after 25 s. -/
def low_slot : Slot := ⟨id, low_reading_after_boot⟩

/-- The event is a call of the resume point creator or of `sprayer.run`. -/
def Event.is_create_or_sprayer_run : Event → Bool
  | Event.CreateResumePointAtCurrentUavLocationAndState => true
  | Event.sprayer_run _ _ => true
  | _ => false

/-- The event is a call of `gcs().send_resume_point_details_back_to_gcs`. -/
def Event.is_send_resume_point_details : Event → Bool
  | Event.send_resume_point_details_back_to_gcs _ _ _ _ _ _ _ => true
  | _ => false

set_option linter.dupNamespace false

/-- Source: the constructor `Copter::Copter(void)`, restricted to the members of `State`: the
initialiser list sets `control_mode(Mode::Number::STABILIZE)`, the body ends with
`_tank_sensor_status = TankSensorState::SENSOR_UNAVAILABLE;`.  The other members are built by
their own constructors, outside these sources; `members` holds them as built. -/
def Copter (members : State) : State :=
  { members with control_mode := ModeNumber.STABILIZE
                 _tank_sensor_status := TankSensorState.SENSOR_UNAVAILABLE }

/-- One call of `update_tank_sensor` in a sequence: the state at entry (after the other code
of the slot), what the call read, and what it did. -/
structure TankCall where
  entry : State
  reads : Reads
  updated : Updated

/-- The call read the configured pin and found it low. -/
def TankCall.read_low (k : TankCall) : Prop :=
  0 < k.entry.pvtank_pin ∧ k.reads.gpio_read (k.entry.pvtank_pin.toNat % 256) = 0

/-- The call read the configured pin and found it high. -/
def TankCall.read_high (k : TankCall) : Prop :=
  0 < k.entry.pvtank_pin ∧ 0 < k.reads.gpio_read (k.entry.pvtank_pin.toNat % 256)

/-- The calls of `update_tank_sensor` made by a sequence of slots, in order; the static
`inBootDelay` and the vehicle state are handed from each call to the next as in
`run_tank_sensor`. -/
def tank_sensor_history (x : Externals) (b : AP_Mission.Build) (inBootDelay : Bool) (c : State) :
    List Slot → List TankCall
  | [] => []
  | slot :: rest =>
    let u := update_tank_sensor x b inBootDelay (slot.other_code c) slot.reads
    ⟨slot.other_code c, slot.reads, u⟩ :: tank_sensor_history x b u.inBootDelay u.copter rest

/-- The other code of the slot never writes `_tank_sensor_status` (in the sources only the
constructor and `update_tank_sensor` assign it). -/
def Slot.keeps_tank_status (slot : Slot) : Prop :=
  ∀ c : State, (slot.other_code c)._tank_sensor_status = c._tank_sensor_status

/-!
## Simple and super simple mode

A shallow embedding of `Copter::update_simple_mode` and `Copter::update_super_simple_bearing`.
`float` members are reals, `cosf`/`sinf` are the real cosine and sine, `radians` multiplies by
`π / 180`.  The `int32_t` bearings are centi-degrees; their sums and differences are taken in
the integers.  The division `(... + 18000) / 100` of two integers truncates towards zero.
-/

/-- Data members of `class Copter` used by the simple mode functions.  `simple_mode` and
`new_radio_frame` are the bitfields `ap.simple_mode` and `ap.new_radio_frame`;
`channel_roll_control_in` and `channel_pitch_control_in` are the values behind
`channel_roll->get_control_in()` and `channel_pitch->get_control_in()`. -/
structure SimpleMode where
  simple_mode : ℕ
  new_radio_frame : Bool
  simple_cos_yaw : ℝ
  simple_sin_yaw : ℝ
  super_simple_last_bearing : ℤ
  super_simple_cos_yaw : ℝ
  super_simple_sin_yaw : ℝ
  channel_roll_control_in : ℝ
  channel_pitch_control_in : ℝ

/-- What the simple mode functions read from outside: `ahrs.cos_yaw()`, `ahrs.sin_yaw()`,
`home_distance()` (a `uint32_t`) and `home_bearing()` (an `int32_t`). -/
structure SimpleReads where
  ahrs_cos_yaw : ℝ
  ahrs_sin_yaw : ℝ
  home_distance : ℕ
  home_bearing : ℤ

/-- Things defined outside these sources that the simple mode functions use: the constant
`SUPER_SIMPLE_RADIUS` and the conversion of the `float` argument of
`RC_Channel::set_control_in` to the type of its parameter. -/
structure SimpleBuild where
  SUPER_SIMPLE_RADIUS : ℕ
  to_control_in : ℝ → ℝ

noncomputable section

/-- The function `radians` of AP_Math: degrees to radians. -/
def radians (deg : ℝ) : ℝ := deg * (Real.pi / 180)

/-- Source: `void Copter::update_simple_mode(void)`. -/
def update_simple_mode (k : SimpleBuild) (s : SimpleMode) (r : SimpleReads) : SimpleMode :=
  if s.simple_mode = 0 ∨ s.new_radio_frame = false then s
  else
    let rollx :=
      if s.simple_mode = 1 then
        s.channel_roll_control_in * s.simple_cos_yaw
          - s.channel_pitch_control_in * s.simple_sin_yaw
      else
        s.channel_roll_control_in * s.super_simple_cos_yaw
          - s.channel_pitch_control_in * s.super_simple_sin_yaw
    let pitchx :=
      if s.simple_mode = 1 then
        s.channel_roll_control_in * s.simple_sin_yaw
          + s.channel_pitch_control_in * s.simple_cos_yaw
      else
        s.channel_roll_control_in * s.super_simple_sin_yaw
          + s.channel_pitch_control_in * s.super_simple_cos_yaw
    { s with new_radio_frame := false
             channel_roll_control_in :=
               k.to_control_in (rollx * r.ahrs_cos_yaw + pitchx * r.ahrs_sin_yaw)
             channel_pitch_control_in :=
               k.to_control_in (-rollx * r.ahrs_sin_yaw + pitchx * r.ahrs_cos_yaw) }

/-- The statements of `update_super_simple_bearing` after the `if (!force_update)` block. -/
def store_home_bearing (s : SimpleMode) (r : SimpleReads) : SimpleMode :=
  let bearing := r.home_bearing
  if |s.super_simple_last_bearing - bearing| < 500 then s
  else
    let angle_rad := radians (((bearing + 18000).tdiv 100 : ℤ) : ℝ)
    { s with super_simple_last_bearing := bearing
             super_simple_cos_yaw := Real.cos angle_rad
             super_simple_sin_yaw := Real.sin angle_rad }

/-- Source: `void Copter::update_super_simple_bearing(bool force_update)`. -/
def update_super_simple_bearing (k : SimpleBuild) (s : SimpleMode) (r : SimpleReads)
    (force_update : Bool) : SimpleMode :=
  if force_update = false then
    if s.simple_mode ≠ 2 then s
    else if r.home_distance < k.SUPER_SIMPLE_RADIUS then s
    else store_home_bearing s r
  else store_home_bearing s r

end

/-! ## Further concrete vehicles used by examples -/

/-- A stored waypoint whose location carries both the `relative_alt` and the `terrain_alt`
flag: an altitude of 1500 cm above terrain. -/
def terrain_waypoint : AP_Mission.Mission_Command :=
  { AP_Mission.blank_command 16 0 with
    content := { (AP_Mission.blank_command 16 0).content with
      location := ⟨352000000, -1200000000, 1500, true, true⟩ } }

/-- The example vehicle on a mission whose stored commands are `terrain_waypoint`. -/
def auto_terrain_mission : State :=
  { auto_full_tank with
    mission := { example_mission with read_cmd_from_storage := fun _ => terrain_waypoint } }

/-- The example vehicle with a mission that is full. -/
def auto_full_mission : State :=
  { auto_full_tank with mission := { example_mission with num_commands := 100 } }

/-- The pin reads high 30 seconds after boot. -/
def high_reading : Reads :=
  { gpio_read := fun _ => 1, millis := 30000, is_taking_off := false, is_landing := false }

/-- A slot in which other code puts the vehicle into AUTO and the pin reads low after 25 s. -/
def auto_low_slot : Slot := ⟨fun c => { c with control_mode := ModeNumber.AUTO },
  low_reading_after_boot⟩

/-- A slot in which no other code touches the vehicle and the pin reads high after 30 s. -/
def high_slot : Slot := ⟨id, high_reading⟩

/-- First call of the edge example: the vehicle is in STABILIZE with a tank that was full, and
the pin reads low. -/
def stabilize_low_call : TankCall :=
  ⟨low_slot.other_code stabilize_full_tank, low_slot.reads,
    update_tank_sensor example_externals AP_Mission.mavlink_build true
      (low_slot.other_code stabilize_full_tank) low_slot.reads⟩

/-- Second call of the edge example: other code has switched to AUTO, the pin still reads
low. -/
def auto_low_call : TankCall :=
  ⟨auto_low_slot.other_code stabilize_low_call.updated.copter, auto_low_slot.reads,
    update_tank_sensor example_externals AP_Mission.mavlink_build
      stabilize_low_call.updated.inBootDelay
      (auto_low_slot.other_code stabilize_low_call.updated.copter) auto_low_slot.reads⟩

/-- Pilot input in super simple mode with a new radio frame, last bearing 9000. -/
def super_simple_input : SimpleMode :=
  { simple_mode := 2
    new_radio_frame := true
    simple_cos_yaw := 1
    simple_sin_yaw := 0
    super_simple_last_bearing := 9000
    super_simple_cos_yaw := 1
    super_simple_sin_yaw := 0
    channel_roll_control_in := 100
    channel_pitch_control_in := -200 }

/-- Heading north, 50 m from home, home at bearing 18000. -/
def far_from_home : SimpleReads :=
  { ahrs_cos_yaw := 1, ahrs_sin_yaw := 0, home_distance := 5000, home_bearing := 18000 }

/-- Heading north, 5 m from home, home at bearing 18000. -/
def near_home : SimpleReads :=
  { ahrs_cos_yaw := 1, ahrs_sin_yaw := 0, home_distance := 500, home_bearing := 18000 }

/-- `SUPER_SIMPLE_RADIUS` of 1000 cm and a control input that stores the value unchanged. -/
def simple_build : SimpleBuild := ⟨1000, id⟩

end Copter

namespace AC_WPNav

/-! ## Theorems -/

/-! ### Inline member functions -/

/-- C9: `reached_wp_destination_xy()` is true exactly when the horizontal distance to the
destination is strictly less than `_wp_radius_cm`; at a distance equal to the radius it is
false. -/
theorem reached_wp_destination_xy_iff (s : State) (env : Env) :
    (reached_wp_destination_xy s env = true ↔
        get_wp_distance_to_destination s env < s._wp_radius_cm) ∧
      (get_wp_distance_to_destination s env = s._wp_radius_cm →
        reached_wp_destination_xy s env = false) := by
  refine ⟨by simp [reached_wp_destination_xy], fun h => ?_⟩
  simp [reached_wp_destination_xy, h]

/-- Horizontal distance of `at_radius_state` seen from the EKF origin: the 3-4-5 triangle. -/
theorem at_radius_state_distance :
    get_wp_distance_to_destination at_radius_state env_at_origin = 500 := by
  have h : ((300 : ℝ) - 0) * (300 - 0) + (400 - 0) * (400 - 0) = 500 * 500 := by norm_num
  show Real.sqrt (((300 : ℝ) - 0) * (300 - 0) + (400 - 0) * (400 - 0)) = 500
  rw [h]
  exact Real.sqrt_mul_self (by norm_num)

/-- Witness for C9: at a distance of exactly 500 cm with a radius of 500 cm the accessor is
false. -/
theorem reached_wp_destination_xy_iff_witness :
    get_wp_distance_to_destination at_radius_state env_at_origin = at_radius_state._wp_radius_cm ∧
      reached_wp_destination_xy at_radius_state env_at_origin = false :=
  ⟨at_radius_state_distance,
    (reached_wp_destination_xy_iff at_radius_state env_at_origin).2 at_radius_state_distance⟩

/-- C10: `set_fast_waypoint(b)` changes only the `fast_waypoint` bit (and `is_fast_waypoint()`
then returns `b`), `set_execute_do_cmds_before_next_nav(b)` changes only the
`do_cmds_before_next_nav` bit; every other field of `_flags` is unchanged. -/
theorem caller_set_modifiers_frame (s : State) (b : Bool) :
    (is_fast_waypoint (set_fast_waypoint s b) = b ∧
      (set_fast_waypoint s b)._flags.do_cmds_before_next_nav = s._flags.do_cmds_before_next_nav ∧
      (set_fast_waypoint s b)._flags.reached_destination = s._flags.reached_destination ∧
      (set_fast_waypoint s b)._flags.waypoint_completed = s._flags.waypoint_completed ∧
      (set_fast_waypoint s b)._flags.reached_previous_wpt = s._flags.reached_previous_wpt ∧
      (set_fast_waypoint s b)._flags.slowing_down = s._flags.slowing_down ∧
      (set_fast_waypoint s b)._flags.recalc_wp_leash = s._flags.recalc_wp_leash ∧
      (set_fast_waypoint s b)._flags.new_wp_destination = s._flags.new_wp_destination ∧
      (set_fast_waypoint s b)._flags.segment_type = s._flags.segment_type ∧
      (set_fast_waypoint s b)._flags.wp_yaw_set = s._flags.wp_yaw_set) ∧
    ((set_execute_do_cmds_before_next_nav s b)._flags.do_cmds_before_next_nav = b ∧
      (set_execute_do_cmds_before_next_nav s b)._flags.fast_waypoint = s._flags.fast_waypoint ∧
      (set_execute_do_cmds_before_next_nav s b)._flags.reached_destination
        = s._flags.reached_destination ∧
      (set_execute_do_cmds_before_next_nav s b)._flags.waypoint_completed
        = s._flags.waypoint_completed ∧
      (set_execute_do_cmds_before_next_nav s b)._flags.reached_previous_wpt
        = s._flags.reached_previous_wpt ∧
      (set_execute_do_cmds_before_next_nav s b)._flags.slowing_down = s._flags.slowing_down ∧
      (set_execute_do_cmds_before_next_nav s b)._flags.recalc_wp_leash
        = s._flags.recalc_wp_leash ∧
      (set_execute_do_cmds_before_next_nav s b)._flags.new_wp_destination
        = s._flags.new_wp_destination ∧
      (set_execute_do_cmds_before_next_nav s b)._flags.segment_type = s._flags.segment_type ∧
      (set_execute_do_cmds_before_next_nav s b)._flags.wp_yaw_set = s._flags.wp_yaw_set) :=
  ⟨⟨rfl, rfl, rfl, rfl, rfl, rfl, rfl, rfl, rfl, rfl⟩,
    ⟨rfl, rfl, rfl, rfl, rfl, rfl, rfl, rfl, rfl, rfl⟩⟩

/-! ### Spline solution -/

/-- C2: after `update_spline_solution(origin, dest, origin_vel, dest_vel)`,
`calc_spline_pos_vel` yields `(origin, origin_vel)` at spline time 0 and `(dest, dest_vel)` at
spline time 1. -/
theorem spline_boundary_conditions (s : State) (origin dest origin_vel dest_vel : Vector3f) :
    calc_spline_pos_vel (update_spline_solution s origin dest origin_vel dest_vel) 0
        = (origin, origin_vel) ∧
      calc_spline_pos_vel (update_spline_solution s origin dest origin_vel dest_vel) 1
        = (dest, dest_vel) := by
  constructor
  · simp [calc_spline_pos_vel, update_spline_solution, Vector3f.add, Vector3f.sub,
      Vector3f.smul]
  · simp only [calc_spline_pos_vel, update_spline_solution, Vector3f.add, Vector3f.sub,
      Vector3f.smul, Matrix.cons_val_zero, Matrix.cons_val_one, Matrix.head_cons,
      Prod.mk.injEq]
    constructor
    · ext <;> simp <;> ring
    · ext <;> simp <;> ring

/-! ### Terrain failure -/

/-- C5: on a terrain-relative segment, when the terrain offset cannot be obtained, both advance
operations return `false` and leave the whole engine state as it was. -/
theorem advance_fails_without_terrain (segment_duration_estimate : ℝ) (s : State) (env : Env)
    (dt : ℝ) (hterrain : s._terrain_alt = true) (hfail : get_terrain_offset s env = none) :
    advance_wp_target_along_track s env dt = (false, s) ∧
      advance_spline_target_along_track segment_duration_estimate s env dt = (false, s) := by
  have h : resolve_terrain_offset s env = none := by
    simp [resolve_terrain_offset, hterrain, hfail]
  constructor
  · simp [advance_wp_target_along_track, h]
  · simp [advance_spline_target_along_track, h]

/-- Witness for C5: a terrain-relative segment, no terrain data, rangefinder not in use. -/
theorem advance_fails_without_terrain_witness :
    terrain_segment_state._terrain_alt = true ∧
      get_terrain_offset terrain_segment_state env_at_origin = none ∧
      advance_wp_target_along_track terrain_segment_state env_at_origin 1
        = (false, terrain_segment_state) ∧
      advance_spline_target_along_track 1 terrain_segment_state env_at_origin 1
        = (false, terrain_segment_state) :=
  have hfail : get_terrain_offset terrain_segment_state env_at_origin = none := by
    simp [get_terrain_offset, env_at_origin, rangefinder_used, terrain_segment_state,
      idle_default]
  ⟨rfl, hfail,
    advance_fails_without_terrain 1 terrain_segment_state env_at_origin 1 rfl hfail⟩

/-! ### Slow-down profile -/

/-- C1 (as stated, refuted): with `S = 500` and `A = 100` the remaining distance `d = 0` lies in
`0 ≤ d ≤ S²/(2A)`, yet `get_slow_down_speed(0, 100)` is the minimum on-track speed 50 and not
`sqrt(2·100·0) = 0`. -/
theorem slow_down_speed_clamped_at_zero_distance :
    (0 : ℝ) < 500 ∧ (0 : ℝ) < 100 ∧ (0 : ℝ) ≤ 0 ∧ (0 : ℝ) ≤ 500 ^ 2 / (2 * 100) ∧
      get_slow_down_speed (calc_slow_down_distance idle_default 500 100) 0 100 = 50 ∧
      get_slow_down_speed (calc_slow_down_distance idle_default 500 100) 0 100
        ≠ Real.sqrt (2 * 100 * 0) := by
  have h : get_slow_down_speed (calc_slow_down_distance idle_default 500 100) 0 100 = 50 := by
    simp [get_slow_down_speed, calc_slow_down_distance, idle_default,
      WPNAV_WP_TRACK_SPEED_MIN]
  refine ⟨by norm_num, by norm_num, le_refl _, by norm_num, h, ?_⟩
  rw [h]
  norm_num

/-- C1 (amended): for `S > 0` and `A > 0`, `calc_slow_down_distance(S, A)` stores `S²/(2A)`, and
when `S` is the cruise speed of the engine, for every `d` with `0 ≤ d ≤ S²/(2A)` the speed
`get_slow_down_speed(d, A)` is `sqrt(2·A·d)` clamped from below to the minimum on-track speed
`WPNAV_WP_TRACK_SPEED_MIN`; it equals `sqrt(2·A·d)` whenever that is at least the minimum. -/
theorem slow_down_profile (s : State) (S A : ℝ) (hS : 0 < S) (hA : 0 < A) :
    (calc_slow_down_distance s S A)._slow_down_dist = S ^ 2 / (2 * A) ∧
      ∀ d : ℝ, 0 ≤ d → d ≤ S ^ 2 / (2 * A) → s._wp_desired_speed_xy_cms = S →
        get_slow_down_speed (calc_slow_down_distance s S A) d A
            = max WPNAV_WP_TRACK_SPEED_MIN (Real.sqrt (2 * A * d)) ∧
          (WPNAV_WP_TRACK_SPEED_MIN ≤ Real.sqrt (2 * A * d) →
            get_slow_down_speed (calc_slow_down_distance s S A) d A
              = Real.sqrt (2 * A * d)) := by
  refine ⟨by simp [calc_slow_down_distance, sq], ?_⟩
  intro d _ hd hcruise
  have h2A : 0 < 2 * A := by linarith
  have hle : 2 * A * d ≤ S ^ 2 := by
    have := (le_div_iff₀ h2A).1 hd
    linarith
  have hsqrt : Real.sqrt (2 * A * d) ≤ S := by
    calc Real.sqrt (2 * A * d) ≤ Real.sqrt (S ^ 2) := Real.sqrt_le_sqrt hle
      _ = S := Real.sqrt_sq hS.le
  have hmin : min S (Real.sqrt (2 * A * d)) = Real.sqrt (2 * A * d) := min_eq_right hsqrt
  have hval : get_slow_down_speed (calc_slow_down_distance s S A) d A
      = max WPNAV_WP_TRACK_SPEED_MIN (Real.sqrt (2 * A * d)) := by
    simp only [get_slow_down_speed, calc_slow_down_distance, hcruise, hmin]
  exact ⟨hval, fun hmin50 => by rw [hval, max_eq_right hmin50]⟩

/-- Square root used by the examples: `sqrt(2·100·800) = 400`. -/
theorem sqrt_two_accel_dist_example : Real.sqrt (2 * 100 * 800) = 400 := by
  have h : (2 : ℝ) * 100 * 800 = 400 * 400 := by norm_num
  rw [h]
  exact Real.sqrt_mul_self (by norm_num)

/-- Witness for C1: cruise speed 500 cm/s, deceleration 100 cm/s², remaining distance 800 cm:
the start distance is 1250 cm and the speed is `sqrt(160000) = 400` cm/s. -/
theorem slow_down_profile_witness :
    (calc_slow_down_distance idle_default 500 100)._slow_down_dist = 500 ^ 2 / (2 * 100) ∧
      get_slow_down_speed (calc_slow_down_distance idle_default 500 100) 800 100
        = Real.sqrt (2 * 100 * 800) :=
  have h := slow_down_profile idle_default 500 100 (by norm_num) (by norm_num)
  ⟨h.1, (h.2 800 (by norm_num) (by norm_num) rfl).2
    (by rw [sqrt_two_accel_dist_example]; norm_num [WPNAV_WP_TRACK_SPEED_MIN])⟩

/-! ### Straight tracker: progress along the track -/

/-- The minimum on-track speed keeps the slow-down speed positive. -/
theorem get_slow_down_speed_pos (s : State) (d a : ℝ) : 0 < get_slow_down_speed s d a := by
  have h : WPNAV_WP_TRACK_SPEED_MIN ≤ get_slow_down_speed s d a := le_max_left _ _
  have h50 : (0 : ℝ) < WPNAV_WP_TRACK_SPEED_MIN := by norm_num [WPNAV_WP_TRACK_SPEED_MIN]
  linarith

/-- The room left on the leash is never negative. -/
theorem leash_room_nonneg (s : State) (curr : Vector3f) : 0 ≤ leash_room s curr :=
  le_max_left _ _

/-- The allowed speed is not negative when the track speed and the room on the leash are not
negative and the time step is positive. -/
theorem allowed_speed_nonneg (s : State) (r room dt : ℝ) (h : 0 ≤ s._track_speed)
    (hroom : 0 ≤ room) (hdt : 0 < dt) : 0 ≤ allowed_speed s r room dt :=
  le_min (le_min (get_slow_down_speed_pos s r s._track_accel).le h) (div_nonneg hroom hdt.le)

/-- Within one tick the target uses up no more than the room left on the leash. -/
theorem allowed_speed_mul_le_room (s : State) (r room dt : ℝ) (hdt : 0 < dt) :
    allowed_speed s r room dt * dt ≤ room := by
  have h : allowed_speed s r room dt ≤ room / dt := min_le_right _ _
  calc allowed_speed s r room dt * dt ≤ room / dt * dt := mul_le_mul_of_nonneg_right h hdt.le
    _ = room := div_mul_cancel₀ room hdt.ne.symm

/-- A failed advance leaves the state alone; a successful one writes the clamped progress. -/
theorem advance_wp_track_desired (s : State) (env : Env) (dt : ℝ) :
    (advance_wp_target_along_track s env dt).2._track_desired = s._track_desired ∨
      ∃ r curr, (advance_wp_target_along_track s env dt).2._track_desired
        = min (s._track_desired + allowed_speed s r (leash_room s curr) dt * dt)
            (track_limit s) := by
  unfold advance_wp_target_along_track
  cases resolve_terrain_offset s env with
  | none => exact Or.inl rfl
  | some off => exact Or.inr ⟨_, _, rfl⟩

/-- The advance operation changes neither the track limit nor the track speed. -/
theorem advance_wp_keeps_limits (s : State) (env : Env) (dt : ℝ) :
    track_limit (advance_wp_target_along_track s env dt).2 = track_limit s ∧
      (advance_wp_target_along_track s env dt).2._track_speed = s._track_speed := by
  unfold advance_wp_target_along_track
  cases resolve_terrain_offset s env with
  | none => exact ⟨rfl, rfl⟩
  | some off => exact ⟨by simp [track_limit, completion_flags], rfl⟩

/-- The segment invariant survives an advance call. -/
theorem advance_wp_preserves_InSegment (s : State) (env : Env) (dt : ℝ) (h : InSegment s) :
    InSegment (advance_wp_target_along_track s env dt).2 := by
  obtain ⟨hlim, hspeed⟩ := advance_wp_keeps_limits s env dt
  refine ⟨?_, by rw [hspeed]; exact h.2⟩
  rw [hlim]
  rcases advance_wp_track_desired s env dt with h1 | ⟨r, curr, h1⟩
  · rw [h1]; exact h.1
  · rw [h1]; exact min_le_right _ _

/-- One advance call with a positive time step does not decrease the progress. -/
theorem advance_wp_track_desired_le (s : State) (env : Env) (dt : ℝ) (h : InSegment s)
    (hdt : 0 < dt) :
    s._track_desired ≤ (advance_wp_target_along_track s env dt).2._track_desired := by
  rcases advance_wp_track_desired s env dt with h1 | ⟨r, curr, h1⟩
  · rw [h1]
  · rw [h1]
    have := mul_nonneg (allowed_speed_nonneg s r _ dt h.2 (leash_room_nonneg s curr) hdt) hdt.le
    exact le_min (by linarith) h.1

/-- Leash limit: an advance call with a positive time step never moves the target beyond the
farthest progress the leash allows; a target that is already beyond it stays where it is or
falls back. -/
theorem advance_wp_within_leash (s : State) (env : Env) (dt off : ℝ) (hdt : 0 < dt)
    (hoff : resolve_terrain_offset s env = some off) :
    (advance_wp_target_along_track s env dt).2._track_desired
      ≤ max s._track_desired (track_desired_max s (position_in_segment_frame env off)) := by
  have hroom := allowed_speed_mul_le_room s
    (remaining_distance s (position_in_segment_frame env off))
    (leash_room s (position_in_segment_frame env off)) dt hdt
  have hmax : s._track_desired + leash_room s (position_in_segment_frame env off)
      = max s._track_desired (track_desired_max s (position_in_segment_frame env off)) := by
    unfold leash_room
    rcases le_total 0 (track_desired_max s (position_in_segment_frame env off)
      - s._track_desired) with h | h
    · rw [max_eq_right h, max_eq_right (by linarith)]; ring
    · rw [max_eq_left h, max_eq_left (by linarith)]; ring
  simp only [advance_wp_target_along_track, hoff]
  refine le_trans (min_le_left _ _) ?_
  rw [← hmax]
  linarith

/-- A target beyond the track limit falls back on every successful advance call. -/
theorem advance_wp_beyond_limit (s : State) (env : Env) (dt : ℝ)
    (hok : (advance_wp_target_along_track s env dt).1 = true)
    (h : track_limit s < s._track_desired) :
    (advance_wp_target_along_track s env dt).2._track_desired < s._track_desired := by
  unfold advance_wp_target_along_track at hok ⊢
  cases hoff : resolve_terrain_offset s env with
  | none => rw [hoff] at hok; simp at hok
  | some off => exact lt_of_le_of_lt (min_le_right _ _) h

/-- The trace of progress values starts with the current progress. -/
theorem track_desired_trace_head (s : State) (ticks : List Tick) :
    (track_desired_trace s ticks).head? = some s._track_desired := by
  cases ticks <;> rfl

/-- C3 (amended): within one segment whose progress is within the current track limit (the
track length, plus the overshoot allowance while `fast_waypoint` is set) and whose track speed
is not negative, for every sequence of `advance_wp_target_along_track(dt)` calls with `dt > 0`,
the value of `_track_desired` after each call is at least its value before the call. -/
theorem track_desired_monotone (s : State) (ticks : List Tick) (hseg : InSegment s)
    (hdt : ∀ tk ∈ ticks, 0 < tk.dt) :
    (track_desired_trace s ticks).Chain' (fun before after => before ≤ after) := by
  induction ticks generalizing s with
  | nil => simp [track_desired_trace]
  | cons tk rest ih =>
    have hpos : 0 < tk.dt := hdt tk (List.mem_cons_self _ _)
    have hrest : ∀ t ∈ rest, 0 < t.dt := fun t ht => hdt t (List.mem_cons_of_mem _ ht)
    show (s._track_desired ::
      track_desired_trace (advance_wp_target_along_track s tk.env tk.dt).2 rest).Chain' _
    rw [List.chain'_cons']
    refine ⟨?_, ih _ (advance_wp_preserves_InSegment s tk.env tk.dt hseg) hrest⟩
    intro y hy
    rw [track_desired_trace_head] at hy
    cases hy
    exact advance_wp_track_desired_le s tk.env tk.dt hseg hpos

/-- A successfully commanded straight segment satisfies the segment invariant when the
configured overshoot allowance is not negative. -/
theorem set_wp_origin_and_destination_InSegment (leash_of : ℝ → ℝ → ℝ) (s : State) (env : Env)
    (origin destination : Vector3f) (terrain_alt : Bool) (hov : 0 ≤ s._wp_fast_overshoot_max)
    (hok : (set_wp_origin_and_destination leash_of s env origin destination terrain_alt).1
      = true) :
    InSegment (set_wp_origin_and_destination leash_of s env origin destination terrain_alt).2 := by
  unfold set_wp_origin_and_destination at hok ⊢
  cases hoff : (if terrain_alt then get_terrain_offset s env else some 0) with
  | none => rw [hoff] at hok; simp at hok
  | some off =>
    have hlen : 0 ≤ (destination.sub origin).length := Real.sqrt_nonneg _
    constructor
    · simp only [calc_slow_down_distance, calculate_wp_leash_length, set_segment_geometry,
        track_limit, new_segment_flags]
      split <;> linarith
    · simp only [calc_slow_down_distance, calculate_wp_leash_length, set_segment_geometry]
      refine le_min ?_ (Real.sqrt_nonneg _)
      have : (0 : ℝ) ≤ WPNAV_WP_SPEED_MIN := by norm_num [WPNAV_WP_SPEED_MIN]
      exact le_trans this (le_max_right _ _)

/-- Witness for C3: the example segment, a tick of one second with the vehicle at the origin
and a tick of two seconds with the vehicle at the destination. -/
theorem track_desired_monotone_witness :
    InSegment segment_start ∧
      (track_desired_trace segment_start [⟨env_at_origin, 1⟩, ⟨env_at_track_end, 2⟩]).Chain'
        (fun before after => before ≤ after) :=
  have hseg : InSegment segment_start :=
    set_wp_origin_and_destination_InSegment leash_300 idle_default env_at_origin Vector3f.zero
      track_end false (by norm_num [idle_default]) rfl
  ⟨hseg, track_desired_monotone segment_start [⟨env_at_origin, 1⟩, ⟨env_at_track_end, 2⟩] hseg
    (by intro tk htk; simp at htk; rcases htk with rfl | rfl <;> norm_num)⟩

/-! ### Evaluation of the example segment -/

/-- Length of the example track. -/
theorem length_track_end : (track_end.sub Vector3f.zero).length = 800 := by
  have h : ((800 : ℝ) - 0) * (800 - 0) + (0 - 0) * (0 - 0) + (0 - 0) * (0 - 0) = 800 * 800 := by
    norm_num
  show Real.sqrt (((800 : ℝ) - 0) * (800 - 0) + (0 - 0) * (0 - 0) + (0 - 0) * (0 - 0)) = 800
  rw [h]
  exact Real.sqrt_mul_self (by norm_num)

/-- Track speed computed by the planner for an 800 cm track with the default speed and
acceleration: `min(500, sqrt(2·100·800)) = 400`. -/
theorem planner_track_speed_example :
    min (max (500 : ℝ) WPNAV_WP_SPEED_MIN)
      (Real.sqrt (2 * max (100 : ℝ) WPNAV_ACCELERATION_MIN * (track_end.sub Vector3f.zero).length))
      = 400 := by
  have h1 : max (500 : ℝ) WPNAV_WP_SPEED_MIN = 500 := by norm_num [WPNAV_WP_SPEED_MIN]
  have h2 : max (100 : ℝ) WPNAV_ACCELERATION_MIN = 100 := by norm_num [WPNAV_ACCELERATION_MIN]
  rw [length_track_end, h1, h2, sqrt_two_accel_dist_example]
  norm_num

/-- Unit direction of the example track. -/
theorem unit_direction_example :
    (if (track_end.sub Vector3f.zero).length = 0 then Vector3f.zero
      else (track_end.sub Vector3f.zero).smul (1 / (track_end.sub Vector3f.zero).length))
      = ⟨1, 0, 0⟩ := by
  rw [length_track_end, if_neg (by norm_num)]
  ext <;> simp [Vector3f.smul, Vector3f.sub, track_end, Vector3f.zero]

/-- On a segment relative to the fixed origin the advance succeeds with a zero terrain offset. -/
theorem advance_wp_flat (s : State) (env : Env) (dt : ℝ) (h : s._terrain_alt = false) :
    (advance_wp_target_along_track s env dt).1 = true ∧
      (advance_wp_target_along_track s env dt).2._track_desired
        = min (s._track_desired
            + allowed_speed s (remaining_distance s (position_in_segment_frame env 0))
                (leash_room s (position_in_segment_frame env 0)) dt * dt)
          (track_limit s) ∧
      (advance_wp_target_along_track s env dt).2._flags.reached_destination
        = (s._flags.reached_destination
            || decide (remaining_distance s (position_in_segment_frame env 0) < s._wp_radius_cm)) ∧
      (advance_wp_target_along_track s env dt).2._flags.waypoint_completed
        = (s._flags.waypoint_completed
            || (s._flags.reached_destination
              || decide (remaining_distance s (position_in_segment_frame env 0)
                  < s._wp_radius_cm))
            || (s._flags.fast_waypoint
              && at_leash_bound s (advance_wp_target_along_track s env dt).2._track_desired)) := by
  have hoff : resolve_terrain_offset s env = some 0 := by simp [resolve_terrain_offset, h]
  simp [advance_wp_target_along_track, hoff, completion_flags]

/-- An advance call writes none of the fields that make up the example track and its limits. -/
theorem advance_wp_keeps_example_track (s : State) (env : Env) (dt : ℝ) :
    OnExampleTrack s → OnExampleTrack (advance_wp_target_along_track s env dt).2 := by
  unfold advance_wp_target_along_track
  cases resolve_terrain_offset s env with
  | none => exact id
  | some off => exact id

/-- An advance call leaves the caller-set flag `fast_waypoint` alone. -/
theorem advance_wp_keeps_fast_waypoint (s : State) (env : Env) (dt : ℝ) :
    (advance_wp_target_along_track s env dt).2._flags.fast_waypoint
      = s._flags.fast_waypoint := by
  unfold advance_wp_target_along_track
  cases resolve_terrain_offset s env with
  | none => rfl
  | some off => rfl

/-- Length of a vector along the x axis. -/
theorem length_along_x (a : ℝ) (ha : 0 ≤ a) : Vector3f.length ⟨a, 0, 0⟩ = a := by
  show Real.sqrt (a * a + 0 * 0 + 0 * 0) = a
  rw [show a * a + 0 * 0 + 0 * 0 = a * a by ring]
  exact Real.sqrt_mul_self ha

/-- Remaining distance and room on the leash of a state that flies the example track, with the
vehicle on the track line `x` cm from the origin: the crosstrack error is zero, so the whole
leash of 300 cm is slack along the track. -/
theorem example_track_quantities (s : State) (x : ℝ) (h : OnExampleTrack s) :
    remaining_distance s (position_in_segment_frame (env_on_track x) 0) = 800 - x ∧
      leash_room s (position_in_segment_frame (env_on_track x) 0)
        = max 0 (x + 300 - s._track_desired) := by
  obtain ⟨-, horig, hdest, hunit, -, -, -, -, -, hleash, -⟩ := h
  have hcov : track_covered s (position_in_segment_frame (env_on_track x) 0) = x := by
    simp [track_covered, position_in_segment_frame, env_on_track, horig, hunit, Vector3f.sub,
      Vector3f.dot, Vector3f.zero]
  have herr : track_error s (position_in_segment_frame (env_on_track x) 0) = ⟨0, 0, 0⟩ := by
    unfold track_error
    rw [hcov]
    simp [position_in_segment_frame, env_on_track, horig, hunit, Vector3f.sub, Vector3f.smul,
      Vector3f.zero]
  have hsq : Real.sqrt ((300 : ℝ) * 300 - 0 * 0) = 300 := by
    rw [show (300 : ℝ) * 300 - 0 * 0 = 300 * 300 by norm_num]
    exact Real.sqrt_mul_self (by norm_num)
  refine ⟨?_, ?_⟩
  · simp [remaining_distance, position_in_segment_frame, env_on_track, hdest, hunit,
      Vector3f.sub, Vector3f.dot, track_end]
  · unfold leash_room track_desired_max
    rw [hcov, herr, length_along_x 0 le_rfl, hleash, hsq]

/-- One tick on the example track with the vehicle on the track line `x` cm from the origin,
where `v` is the square root of `2 · 100 · (800 - x)`: the call succeeds and the new progress
is the old one plus the allowed speed times `dt`, clamped to the track limit. -/
theorem example_track_tick (s : State) (x dt v : ℝ) (h : OnExampleTrack s) (hv : 0 ≤ v)
    (hx : 2 * 100 * (800 - x) = v * v) :
    (advance_wp_target_along_track s (env_on_track x) dt).1 = true ∧
      (advance_wp_target_along_track s (env_on_track x) dt).2._track_desired
        = min (s._track_desired
            + min (min (max 50 (min 500 v)) 400) (max 0 (x + 300 - s._track_desired) / dt) * dt)
          (track_limit s) := by
  obtain ⟨hrem, hroom⟩ := example_track_quantities s x h
  obtain ⟨hterr, -, -, -, hspeed, haccel, hcruise, -, -, -, -⟩ := h
  obtain ⟨hok, hprog, -, -⟩ := advance_wp_flat s (env_on_track x) dt hterr
  refine ⟨hok, ?_⟩
  rw [hprog, hrem, hroom]
  simp only [allowed_speed, get_slow_down_speed, hspeed, haccel, hcruise,
    WPNAV_WP_TRACK_SPEED_MIN]
  rw [hx, Real.sqrt_mul_self hv]

/-- Geometry and limits of the fast example segment at its start. -/
theorem fast_segment_start_fields :
    OnExampleTrack fast_segment_start ∧
      fast_segment_start._flags.fast_waypoint = true ∧
      fast_segment_start._track_desired = 0 ∧
      fast_segment_start._flags.reached_destination = false ∧
      fast_segment_start._flags.waypoint_completed = false := by
  refine ⟨⟨rfl, rfl, rfl, unit_direction_example, planner_track_speed_example, ?_, rfl,
    length_track_end, rfl, ?_, rfl⟩, rfl, rfl, rfl, rfl⟩
  · show max (100 : ℝ) WPNAV_ACCELERATION_MIN = 100
    norm_num [WPNAV_ACCELERATION_MIN]
  · show max WPNAV_LEASH_LENGTH_MIN (300 : ℝ) = 300
    norm_num [WPNAV_LEASH_LENGTH_MIN]

/-- The track limit of a state on the example track. -/
theorem example_track_limit (s : State) (h : OnExampleTrack s) :
    track_limit s = if s._flags.fast_waypoint then 820 else 800 := by
  obtain ⟨-, -, -, -, -, -, -, hlen, hov, -, -⟩ := h
  unfold track_limit
  rw [hlen, hov]
  norm_num

/-- State of the fast example segment after the first tick: the leash of 300 cm holds the
target 300 cm along the track, short of the leash bound at 500 cm, and neither arrival flag is
set. -/
theorem fast_after_one_tick_fields :
    OnExampleTrack fast_after_one_tick ∧
      fast_after_one_tick._flags.fast_waypoint = true ∧
      fast_after_one_tick._track_desired = 300 ∧
      fast_after_one_tick._flags.reached_destination = false ∧
      fast_after_one_tick._flags.waypoint_completed = false := by
  obtain ⟨htrack, hfast, hprog, hreached, hdone⟩ := fast_segment_start_fields
  have hlimit := example_track_limit fast_segment_start htrack
  rw [hfast] at hlimit
  obtain ⟨-, h1⟩ := example_track_tick fast_segment_start 0 1 400 htrack (by norm_num)
    (by norm_num)
  obtain ⟨hrem, -⟩ := example_track_quantities fast_segment_start 0 htrack
  obtain ⟨-, -, h2, h3⟩ := advance_wp_flat fast_segment_start (env_on_track 0) 1 htrack.1
  have hp : fast_after_one_tick._track_desired = 300 := by
    show (advance_wp_target_along_track fast_segment_start (env_on_track 0) 1).2._track_desired
      = 300
    rw [h1, hprog, hlimit]; norm_num
  refine ⟨advance_wp_keeps_example_track _ _ _ htrack,
    (advance_wp_keeps_fast_waypoint _ _ _).trans hfast, hp, ?_, ?_⟩
  · show (advance_wp_target_along_track fast_segment_start (env_on_track 0)
      1).2._flags.reached_destination = false
    rw [h2, hrem, hreached, htrack.2.2.2.2.2.2.2.2.2.2]; norm_num
  · show (advance_wp_target_along_track fast_segment_start (env_on_track 0)
      1).2._flags.waypoint_completed = false
    have hp0 : (advance_wp_target_along_track fast_segment_start (env_on_track 0)
      1).2._track_desired = 300 := hp
    rw [h3, hrem, hreached, hdone, hfast, hp0, htrack.2.2.2.2.2.2.2.2.2.2]
    norm_num [at_leash_bound, htrack.2.2.2.2.2.2.2.1, htrack.2.2.2.2.2.2.2.2.2.1]

/-- State of the fast example segment after the second tick, the vehicle 350 cm along the
track: the target is 600 cm along the track. -/
theorem fast_after_two_ticks_fields :
    OnExampleTrack fast_after_two_ticks ∧
      fast_after_two_ticks._flags.fast_waypoint = true ∧
      fast_after_two_ticks._track_desired = 600 := by
  obtain ⟨htrack, hfast, hprog, -, -⟩ := fast_after_one_tick_fields
  have hlimit := example_track_limit fast_after_one_tick htrack
  rw [hfast] at hlimit
  obtain ⟨-, h1⟩ := example_track_tick fast_after_one_tick 350 1 300 htrack (by norm_num)
    (by norm_num)
  refine ⟨advance_wp_keeps_example_track _ _ _ htrack,
    (advance_wp_keeps_fast_waypoint _ _ _).trans hfast, ?_⟩
  show (advance_wp_target_along_track fast_after_one_tick (env_on_track 350) 1).2._track_desired
    = 600
  rw [h1, hprog, hlimit]; norm_num

/-- State of the fast example segment after the third and the fourth tick, the vehicle 600 cm
along the track: the target reaches the destination and then the end of the overshoot
allowance, 820 cm along the track. -/
theorem fast_overshoot_fields :
    OnExampleTrack fast_overshoot ∧ fast_overshoot._flags.fast_waypoint = true ∧
      fast_after_three_ticks._track_desired = 800 ∧ fast_overshoot._track_desired = 820 := by
  obtain ⟨htrack2, hfast2, hprog2⟩ := fast_after_two_ticks_fields
  have hlimit2 := example_track_limit fast_after_two_ticks htrack2
  rw [hfast2] at hlimit2
  obtain ⟨-, h3⟩ := example_track_tick fast_after_two_ticks 600 1 200 htrack2 (by norm_num)
    (by norm_num)
  have htrack3 : OnExampleTrack fast_after_three_ticks :=
    advance_wp_keeps_example_track _ _ _ htrack2
  have hfast3 : fast_after_three_ticks._flags.fast_waypoint = true :=
    (advance_wp_keeps_fast_waypoint _ _ _).trans hfast2
  have hprog3 : fast_after_three_ticks._track_desired = 800 := by
    show (advance_wp_target_along_track fast_after_two_ticks (env_on_track 600)
      1).2._track_desired = 800
    rw [h3, hprog2, hlimit2]; norm_num
  have hlimit3 := example_track_limit fast_after_three_ticks htrack3
  rw [hfast3] at hlimit3
  obtain ⟨-, h4⟩ := example_track_tick fast_after_three_ticks 600 1 200 htrack3 (by norm_num)
    (by norm_num)
  refine ⟨advance_wp_keeps_example_track _ _ _ htrack3,
    (advance_wp_keeps_fast_waypoint _ _ _).trans hfast3, hprog3, ?_⟩
  show (advance_wp_target_along_track fast_after_three_ticks (env_on_track 600)
    1).2._track_desired = 820
  rw [h4, hprog3, hlimit3]; norm_num

/-- C3 (as stated, refuted): one segment (default engine, 800 cm, leash 300 cm), flown as a
fast waypoint with ticks of one second and the vehicle 0, 350, 600 and 600 cm along the track,
which takes the target to 300, 600, 800 and 820 cm, inside the overshoot allowance; the caller
then calls `set_fast_waypoint(false)` and no new segment is commanded.  The next
`advance_wp_target_along_track` call with `dt = 1` succeeds and clamps the progress to the
track length: `_track_desired` goes from 820 down to 800. -/
theorem track_desired_falls_after_fast_cleared :
    Reachable idle_default fast_cleared_in_overshoot ∧
      fast_cleared_in_overshoot._origin = fast_segment_start._origin ∧
      fast_cleared_in_overshoot._destination = fast_segment_start._destination ∧
      fast_cleared_in_overshoot._track_desired = 820 ∧
      (advance_wp_target_along_track fast_cleared_in_overshoot (env_on_track 600) 1).1 = true ∧
      (advance_wp_target_along_track fast_cleared_in_overshoot (env_on_track 600)
        1).2._track_desired = 800 ∧
      (0 : ℝ) < 1 ∧
      ¬ (track_desired_trace fast_cleared_in_overshoot [⟨env_on_track 600, 1⟩]).Chain'
        (fun before after => before ≤ after) := by
  obtain ⟨htrack, -, -, hprog⟩ := fast_overshoot_fields
  have htrack5 : OnExampleTrack fast_cleared_in_overshoot := htrack
  have hprog5 : fast_cleared_in_overshoot._track_desired = 820 := hprog
  have hfast5 : fast_cleared_in_overshoot._flags.fast_waypoint = false := rfl
  have hlimit := example_track_limit fast_cleared_in_overshoot htrack5
  rw [hfast5] at hlimit
  obtain ⟨hok, h5⟩ := example_track_tick fast_cleared_in_overshoot 600 1 200 htrack5
    (by norm_num) (by norm_num)
  have hnext : (advance_wp_target_along_track fast_cleared_in_overshoot (env_on_track 600)
      1).2._track_desired = 800 := by
    rw [h5, hprog5, hlimit]; norm_num
  refine ⟨?_, htrack5.2.1.trans fast_segment_start_fields.1.2.1.symm,
    htrack5.2.2.1.trans fast_segment_start_fields.1.2.2.1.symm, hprog5, hok, hnext,
    by norm_num, ?_⟩
  · have r1 : Reachable idle_default (set_fast_waypoint idle_default true) :=
      Relation.ReflTransGen.single (Step.set_fast_waypoint idle_default true)
    have r2 : Reachable idle_default fast_segment_start :=
      Relation.ReflTransGen.tail r1 (Step.set_wp_origin_and_destination leash_300
        (set_fast_waypoint idle_default true) env_at_origin Vector3f.zero track_end false)
    have r3 : Reachable idle_default fast_after_one_tick :=
      Relation.ReflTransGen.tail r2
        (Step.advance_wp_target_along_track fast_segment_start env_at_origin 1)
    have r4 : Reachable idle_default fast_after_two_ticks :=
      Relation.ReflTransGen.tail r3
        (Step.advance_wp_target_along_track fast_after_one_tick (env_on_track 350) 1)
    have r5 : Reachable idle_default fast_after_three_ticks :=
      Relation.ReflTransGen.tail r4
        (Step.advance_wp_target_along_track fast_after_two_ticks (env_on_track 600) 1)
    have r6 : Reachable idle_default fast_overshoot :=
      Relation.ReflTransGen.tail r5
        (Step.advance_wp_target_along_track fast_after_three_ticks (env_on_track 600) 1)
    exact Relation.ReflTransGen.tail r6 (Step.set_fast_waypoint fast_overshoot false)
  · show ¬ ([fast_cleared_in_overshoot._track_desired,
      (advance_wp_target_along_track fast_cleared_in_overshoot (env_on_track 600)
        1).2._track_desired]).Chain' (fun before after => before ≤ after)
    rw [hnext, hprog5]
    norm_num

/-! ### Arrival flags -/

/-- The completion rule never sets `reached_destination` without `waypoint_completed`. -/
theorem completion_flags_reached_imp_completed (f : wpnav_flags) (within_radius bound : Bool) :
    (completion_flags f within_radius bound).reached_destination = true →
      (completion_flags f within_radius bound).waypoint_completed = true := by
  simp only [completion_flags]
  intro h
  simp [h]

/-- Every operation of the engine keeps "reached implies completed". -/
theorem step_keeps_reached_imp_completed (s t : State) (hstep : Step s t)
    (h : s._flags.reached_destination = true → s._flags.waypoint_completed = true) :
    t._flags.reached_destination = true → t._flags.waypoint_completed = true := by
  cases hstep with
  | set_wp_origin_and_destination leash_of env origin destination terrain_alt =>
    unfold AC_WPNav.set_wp_origin_and_destination
    split
    · exact h
    · intro hr; simp [calc_slow_down_distance, calculate_wp_leash_length, set_segment_geometry,
        new_segment_flags] at hr
  | set_spline_origin_and_destination leash_of env origin destination terrain_alt stopped
      seg_end_type next_destination =>
    unfold AC_WPNav.set_spline_origin_and_destination
    split
    · exact h
    · intro hr; simp [calc_slow_down_distance, calculate_wp_leash_length, set_segment_geometry,
        new_segment_flags, update_spline_solution] at hr
  | advance_wp_target_along_track env dt =>
    unfold AC_WPNav.advance_wp_target_along_track
    split
    · exact h
    · exact completion_flags_reached_imp_completed _ _ _
  | advance_spline_target_along_track d env dt =>
    unfold AC_WPNav.advance_spline_target_along_track
    split
    · exact h
    · exact completion_flags_reached_imp_completed _ _ _
  | check_wp_leash_length leash_of =>
    unfold AC_WPNav.check_wp_leash_length
    split
    · exact h
    · exact h
  | set_speed_xy speed_cms => exact h
  | set_speed_up speed_cms => exact h
  | set_speed_down speed_cms => exact h
  | set_fast_waypoint fast => exact h
  | set_execute_do_cmds_before_next_nav b => exact h
  | resetReachedPreviousWaypoint => exact h
  | set_rangefinder_alt use healthy alt_cm => exact h

/-- C6: in every state reachable from an idle engine through the operations of the engine,
`waypoint_completed()` is true whenever `reached_wp_destination()` is true. -/
theorem reached_implies_completed (s0 s : State) (hidle : Idle s0) (hreach : Reachable s0 s) :
    reached_wp_destination s = true → waypoint_completed s = true := by
  induction hreach with
  | refl =>
    intro hr
    have := hidle.1
    simp [reached_wp_destination] at hr
    rw [hr] at this
    cases this
  | tail _ hstep ih => exact step_keeps_reached_imp_completed _ _ hstep ih

/-- Witness for C6: the default engine flies the example segment and the vehicle is at the
destination on the first tick; both arrival flags are then set. -/
theorem reached_implies_completed_witness :
    Idle idle_default ∧ Reachable idle_default arrived_state ∧
      reached_wp_destination arrived_state = true ∧ waypoint_completed arrived_state = true :=
  have hreach : Reachable idle_default arrived_state :=
    Relation.ReflTransGen.tail
      (Relation.ReflTransGen.single (Step.set_wp_origin_and_destination leash_300 idle_default
        env_at_origin Vector3f.zero track_end false))
      (Step.advance_wp_target_along_track segment_start env_at_track_end 1)
  have hrem : remaining_distance segment_start (position_in_segment_frame env_at_track_end 0)
      = 0 := by
    have hdest : segment_start._destination = track_end := rfl
    simp [remaining_distance, position_in_segment_frame, hdest, Vector3f.sub, Vector3f.dot,
      env_at_track_end, track_end]
  have hrad : segment_start._wp_radius_cm = 200 := rfl
  have hreached : reached_wp_destination arrived_state = true := by
    show (advance_wp_target_along_track segment_start env_at_track_end
      1).2._flags.reached_destination = true
    rw [(advance_wp_flat segment_start env_at_track_end 1 rfl).2.2.1, hrem, hrad]
    norm_num
  ⟨⟨rfl, rfl⟩, hreach, hreached,
    reached_implies_completed idle_default arrived_state ⟨rfl, rfl⟩ hreach hreached⟩

/-- After one advance call the flag `reached_destination` is set exactly when it was set
before or the remaining distance of this tick is below the radius. -/
theorem advance_wp_reached_iff (s : State) (env : Env) (dt : ℝ) :
    reached_wp_destination (advance_wp_target_along_track s env dt).2 = true ↔
      reached_wp_destination s = true ∨ below_radius s env := by
  unfold advance_wp_target_along_track below_radius
  cases hoff : resolve_terrain_offset s env with
  | none => simp
  | some off => simp [reached_wp_destination, completion_flags]

/-- C4: within one segment the flag `reached_destination` is set after a sequence of ticks
exactly when it was set before the sequence or the sequence contains a tick at which the
remaining distance (which needs a resolved terrain offset) is below `_wp_radius_cm`: it becomes
true on the first such tick and stays true on every later tick.  Commanding a new segment
either fails and leaves the state alone or succeeds and clears the flag. -/
theorem reached_destination_latched (leash_of : ℝ → ℝ → ℝ) (s : State) (ticks : List Tick)
    (env : Env) (origin destination : Vector3f) (terrain_alt : Bool) :
    (reached_wp_destination (run_wp s ticks) = true ↔
        reached_wp_destination s = true ∨
          ∃ pre tk post, ticks = pre ++ tk :: post ∧ below_radius (run_wp s pre) tk.env) ∧
      (((set_wp_origin_and_destination leash_of s env origin destination terrain_alt).1 = false ∧
          (set_wp_origin_and_destination leash_of s env origin destination terrain_alt).2 = s) ∨
        ((set_wp_origin_and_destination leash_of s env origin destination terrain_alt).1 = true ∧
          reached_wp_destination
            (set_wp_origin_and_destination leash_of s env origin destination terrain_alt).2
            = false)) := by
  constructor
  · induction ticks generalizing s with
    | nil => simp [run_wp]
    | cons tk rest ih =>
      show reached_wp_destination
        (run_wp (advance_wp_target_along_track s tk.env tk.dt).2 rest) = true ↔ _
      rw [ih, advance_wp_reached_iff]
      constructor
      · rintro ((h | h) | ⟨pre, t, post, hsplit, h⟩)
        · exact Or.inl h
        · exact Or.inr ⟨[], tk, rest, rfl, h⟩
        · exact Or.inr ⟨tk :: pre, t, post, by rw [hsplit]; rfl, h⟩
      · rintro (h | ⟨pre, t, post, hsplit, h⟩)
        · exact Or.inl (Or.inl h)
        · cases pre with
          | nil =>
            simp only [List.nil_append, List.cons.injEq] at hsplit
            obtain ⟨rfl, rfl⟩ := hsplit
            exact Or.inl (Or.inr h)
          | cons p pre =>
            simp only [List.cons_append, List.cons.injEq] at hsplit
            obtain ⟨rfl, rfl⟩ := hsplit
            exact Or.inr ⟨pre, t, post, rfl, h⟩
  · unfold set_wp_origin_and_destination
    split
    · exact Or.inl ⟨rfl, rfl⟩
    · exact Or.inr ⟨rfl, rfl⟩

/-! ### Further inline member functions -/

/-- C11: after `resetReachedPreviousWaypoint()` the accessor `reached_prev_wpt()` returns false,
every other flag is unchanged, and a second call changes nothing. -/
theorem resetReachedPreviousWaypoint_frame (s : State) :
    reached_prev_wpt (resetReachedPreviousWaypoint s) = false ∧
      ((resetReachedPreviousWaypoint s)._flags.do_cmds_before_next_nav
          = s._flags.do_cmds_before_next_nav ∧
        (resetReachedPreviousWaypoint s)._flags.waypoint_completed
          = s._flags.waypoint_completed ∧
        (resetReachedPreviousWaypoint s)._flags.reached_destination
          = s._flags.reached_destination ∧
        (resetReachedPreviousWaypoint s)._flags.fast_waypoint = s._flags.fast_waypoint ∧
        (resetReachedPreviousWaypoint s)._flags.slowing_down = s._flags.slowing_down ∧
        (resetReachedPreviousWaypoint s)._flags.recalc_wp_leash = s._flags.recalc_wp_leash ∧
        (resetReachedPreviousWaypoint s)._flags.new_wp_destination
          = s._flags.new_wp_destination ∧
        (resetReachedPreviousWaypoint s)._flags.segment_type = s._flags.segment_type ∧
        (resetReachedPreviousWaypoint s)._flags.wp_yaw_set = s._flags.wp_yaw_set) ∧
      resetReachedPreviousWaypoint (resetReachedPreviousWaypoint s)
        = resetReachedPreviousWaypoint s :=
  ⟨rfl, ⟨rfl, rfl, rfl, rfl, rfl, rfl, rfl, rfl, rfl⟩, rfl⟩

/-- C12: `rangefinder_used()` is true exactly when the parameter `_rangefinder_use` is non-zero
and the `healthy` value of the latest `set_rangefinder_alt(use, healthy, alt_cm)` is true;
`set_rangefinder_alt` stores its three arguments and leaves the parameter alone, and its
`use` argument has no influence on `rangefinder_used()`. -/
theorem rangefinder_used_iff (s : State) (use healthy : Bool) (alt_cm : ℝ) :
    (rangefinder_used s = true ↔ s._rangefinder_use ≠ 0 ∧ s._rangefinder_healthy = true) ∧
      (rangefinder_used (set_rangefinder_alt s use healthy alt_cm) = true ↔
        s._rangefinder_use ≠ 0 ∧ healthy = true) ∧
      ((set_rangefinder_alt s use healthy alt_cm)._rangefinder_available = use ∧
        (set_rangefinder_alt s use healthy alt_cm)._rangefinder_healthy = healthy ∧
        (set_rangefinder_alt s use healthy alt_cm)._rangefinder_alt_cm = alt_cm ∧
        (set_rangefinder_alt s use healthy alt_cm)._rangefinder_use = s._rangefinder_use) ∧
      ∀ other_use : Bool,
        rangefinder_used (set_rangefinder_alt s other_use healthy alt_cm)
          = rangefinder_used (set_rangefinder_alt s use healthy alt_cm) := by
  refine ⟨?_, ?_, ⟨rfl, rfl, rfl, rfl⟩, fun _ => rfl⟩
  · simp [rangefinder_used]
  · simp [rangefinder_used, set_rangefinder_alt]

/-- C13: `reached_spline_destination()` returns the same value as `reached_wp_destination()`. -/
theorem reached_spline_destination_eq (s : State) :
    reached_spline_destination s = reached_wp_destination s :=
  rfl

/-- C15: `is_waiting_for_do_cmds()` does not look at the engine state: it returns the same
value on any two states, in particular on two states that differ only in
`do_cmds_before_next_nav`, namely the negation of the mission's `is_do_commands_all_done()`. -/
theorem is_waiting_for_do_cmds_ignores_flag (s other : State) (b : Bool)
    (mission : AP_Mission.State) :
    is_waiting_for_do_cmds (set_execute_do_cmds_before_next_nav s b) mission
        = is_waiting_for_do_cmds s mission ∧
      is_waiting_for_do_cmds other mission = is_waiting_for_do_cmds s mission ∧
      is_waiting_for_do_cmds s mission = !mission.is_do_commands_all_done :=
  ⟨rfl, rfl, rfl⟩

/-! ### The scenario of §8 in numbers -/

/-- Length of the scenario track. -/
theorem length_track_end_1000 : (track_end_1000.sub Vector3f.zero).length = 1000 := by
  have h : ((1000 : ℝ) - 0) * (1000 - 0) + (0 - 0) * (0 - 0) + (0 - 0) * (0 - 0)
      = 1000 * 1000 := by norm_num
  show Real.sqrt (((1000 : ℝ) - 0) * (1000 - 0) + (0 - 0) * (0 - 0) + (0 - 0) * (0 - 0)) = 1000
  rw [h]
  exact Real.sqrt_mul_self (by norm_num)

/-- The square root of 100000 lies between 316 and 317. -/
theorem sqrt_100000_bounds :
    (316 : ℝ) ≤ Real.sqrt (2 * 100 * 500) ∧ Real.sqrt (2 * 100 * 500) < 317 := by
  constructor
  · rw [show (316 : ℝ) = Real.sqrt (316 * 316) from (Real.sqrt_mul_self (by norm_num)).symm]
    exact Real.sqrt_le_sqrt (by norm_num)
  · rw [show (317 : ℝ) = Real.sqrt (317 * 317) from (Real.sqrt_mul_self (by norm_num)).symm]
    exact Real.sqrt_lt_sqrt (by norm_num) (by norm_num)

/-- Fields of the scenario segment at its start. -/
theorem segment_1000_fields :
    segment_1000._terrain_alt = false ∧ segment_1000._destination = track_end_1000 ∧
      segment_1000._pos_delta_unit = ⟨1, 0, 0⟩ ∧ segment_1000._track_length = 1000 ∧
      segment_1000._slow_down_dist = 1250 := by
  refine ⟨rfl, rfl, ?_, length_track_end_1000, ?_⟩
  · show (if (track_end_1000.sub Vector3f.zero).length = 0 then Vector3f.zero
      else (track_end_1000.sub Vector3f.zero).smul
        (1 / (track_end_1000.sub Vector3f.zero).length)) = ⟨1, 0, 0⟩
    rw [length_track_end_1000, if_neg (by norm_num)]
    ext <;> simp [Vector3f.smul, Vector3f.sub, track_end_1000, Vector3f.zero]
  · show (500 : ℝ) * 500 / (2 * max (100 : ℝ) WPNAV_ACCELERATION_MIN) = 1250
    have h : max (100 : ℝ) WPNAV_ACCELERATION_MIN = 100 := by
      norm_num [WPNAV_ACCELERATION_MIN]
    rw [h]
    norm_num

/-- C14: with the header defaults (radius 200 cm, speed 500 cm/s, acceleration 100 cm/s²) the
slow-down start distance is exactly 1250 cm; it exceeds the 1000 cm of the scenario segment,
whose first tick with the vehicle at the origin already sets `slowing_down`; the profile
speed at 500 cm is `sqrt(2·100·500)`, whose integer part is 316 (`316² ≤ 100000 < 317²`). -/
theorem default_scenario_numbers (s : State) (dt : ℝ) :
    (WPNAV_WP_RADIUS = 200 ∧ WPNAV_WP_SPEED = 500 ∧ WPNAV_ACCELERATION = 100) ∧
      (calc_slow_down_distance s WPNAV_WP_SPEED WPNAV_ACCELERATION)._slow_down_dist = 1250 ∧
      (segment_1000._track_length = 1000 ∧ segment_1000._slow_down_dist = 1250 ∧
        segment_1000._track_length < segment_1000._slow_down_dist ∧
        (advance_wp_target_along_track segment_1000 env_at_origin dt).2._flags.slowing_down
          = true) ∧
      get_slow_down_speed { s with _wp_desired_speed_xy_cms := WPNAV_WP_SPEED } 500
          WPNAV_ACCELERATION = Real.sqrt (2 * 100 * 500) ∧
      ⌊Real.sqrt (2 * 100 * 500)⌋ = 316 ∧
      ((316 : ℝ) ^ 2 ≤ 2 * 100 * 500 ∧ (2 : ℝ) * 100 * 500 < 317 ^ 2) := by
  obtain ⟨hlow, hhigh⟩ := sqrt_100000_bounds
  obtain ⟨hterr, hdest, hunit, hlen, hslow⟩ := segment_1000_fields
  refine ⟨⟨rfl, rfl, rfl⟩, ?_, ⟨hlen, hslow, by rw [hlen, hslow]; norm_num, ?_⟩, ?_, ?_,
    by norm_num, by norm_num⟩
  · simp only [calc_slow_down_distance, WPNAV_WP_SPEED, WPNAV_ACCELERATION]
    norm_num
  · have hoff : resolve_terrain_offset segment_1000 env_at_origin = some 0 := by
      simp [resolve_terrain_offset, hterr]
    have hrem : remaining_distance segment_1000 (position_in_segment_frame env_at_origin 0)
        = 1000 := by
      simp [remaining_distance, position_in_segment_frame, hdest, hunit, Vector3f.sub,
        Vector3f.dot, env_at_origin, Vector3f.zero, track_end_1000]
    simp only [advance_wp_target_along_track, hoff, hrem, hslow]
    norm_num
  · simp only [get_slow_down_speed, WPNAV_WP_SPEED, WPNAV_ACCELERATION,
      WPNAV_WP_TRACK_SPEED_MIN]
    rw [min_eq_right (by linarith), max_eq_right (by linarith)]
  · rw [Int.floor_eq_iff]
    refine ⟨by exact_mod_cast hlow, ?_⟩
    have h317 : ((316 : ℤ) : ℝ) + 1 = 317 := by norm_num
    rw [h317]
    exact hhigh

end AC_WPNav

namespace AP_Mission

/-! ## Theorems on the mission command starters -/

/-- C20: a command starter whose collaborator is unavailable returns `false` (it does return:
no panic) and invokes no collaborator operation; this holds for the gripper, servo/relay,
sprayer (`MAV_CMD_USER_1`), camera and parachute starters. -/
theorem starters_fail_without_collaborator (b : Build) (ap : Singletons)
    (cmd : Mission_Command) :
    (ap.gripper = false → start_command_do_gripper b ap cmd = ⟨[], some false⟩) ∧
      (ap.servorelayevents = false →
        start_command_do_servorelayevents b ap cmd = ⟨[], some false⟩) ∧
      (ap.sprayer = false → cmd.id = b.MAV_CMD_USER_1 →
        start_command_user_1 b ap cmd = ⟨[], some false⟩) ∧
      (ap.camera = false → start_command_camera b ap cmd = ⟨[], some false⟩) ∧
      (ap.parachute = false → start_command_parachute b ap cmd = ⟨[], some false⟩) := by
  refine ⟨fun h => ?_, fun h => ?_, fun h hid => ?_, fun h => ?_, fun h => ?_⟩
  · simp [start_command_do_gripper, h]
  · simp [start_command_do_servorelayevents, h]
  · simp [start_command_user_1, h, hid]
  · simp [start_command_camera, h]
  · simp [start_command_parachute, h]

/-- Witness for C20: no collaborator available, a `MAV_CMD_USER_1` command with `p1 = 1`. -/
theorem starters_fail_without_collaborator_witness :
    start_command_do_gripper mavlink_build no_singletons (blank_command 31010 1)
        = ⟨[], some false⟩ ∧
      start_command_do_servorelayevents mavlink_build no_singletons (blank_command 31010 1)
        = ⟨[], some false⟩ ∧
      start_command_user_1 mavlink_build no_singletons (blank_command 31010 1)
        = ⟨[], some false⟩ ∧
      start_command_camera mavlink_build no_singletons (blank_command 31010 1)
        = ⟨[], some false⟩ ∧
      start_command_parachute mavlink_build no_singletons (blank_command 31010 1)
        = ⟨[], some false⟩ :=
  have h := starters_fail_without_collaborator mavlink_build no_singletons
    (blank_command 31010 1)
  ⟨h.1 rfl, h.2.1 rfl, h.2.2.1 rfl rfl, h.2.2.2.1 rfl, h.2.2.2.2 rfl⟩

end AP_Mission

namespace Copter

/-! ## Theorems on the tank sensor task -/

/-- Events of `insert_resume_point` are never calls of `set_mode`. -/
theorem insert_resume_point_no_set_mode (x : Externals) (b : AP_Mission.Build)
    (wasSpraying : Bool) (c : State) :
    (insert_resume_point x b wasSpraying c).2.filter Event.is_set_mode = [] := by
  unfold insert_resume_point
  simp only []
  split_ifs <;> simp [Event.is_set_mode]

/-- C19: on every path through `BrakeAndInsertResumePointIfNeeded` the calls of `set_mode` are
exactly one call `set_mode(BRAKE, FAILSAFE)`. -/
theorem brake_switches_mode_exactly_once (x : Externals) (b : AP_Mission.Build) (c : State) :
    (BrakeAndInsertResumePointIfNeeded x b c).2.filter Event.is_set_mode
        = [Event.set_mode ModeNumber.BRAKE ModeReason.FAILSAFE] ∧
      (BrakeAndInsertResumePointIfNeeded x b c).2.count
        (Event.set_mode ModeNumber.BRAKE ModeReason.FAILSAFE) = 1 := by
  have hfilter : (BrakeAndInsertResumePointIfNeeded x b c).2.filter Event.is_set_mode
      = [Event.set_mode ModeNumber.BRAKE ModeReason.FAILSAFE] := by
    unfold BrakeAndInsertResumePointIfNeeded
    simp only []
    split_ifs
    · simp [Event.is_set_mode]
    · simp [Event.is_set_mode]
    · simp [Event.is_set_mode, insert_resume_point_no_set_mode]
  refine ⟨hfilter, ?_⟩
  have hcount : ((BrakeAndInsertResumePointIfNeeded x b c).2.filter Event.is_set_mode).count
      (Event.set_mode ModeNumber.BRAKE ModeReason.FAILSAFE) = 1 := by
    rw [hfilter]; decide
  rw [List.count_filter (by rfl)] at hcount
  exact hcount

/-- The resume point creator is called by `insert_resume_point` exactly when the mission has
room for more commands. -/
theorem insert_resume_point_creates_iff (x : Externals) (b : AP_Mission.Build)
    (wasSpraying : Bool) (c : State) :
    Event.CreateResumePointAtCurrentUavLocationAndState
        ∈ (insert_resume_point x b wasSpraying c).2 ↔
      (c.mission.num_commands : ℤ) < c.mission.num_commands_max := by
  unfold insert_resume_point
  simp only []
  split_ifs with h1 h2 h3 <;> simp [h1]

/-- C18: `BrakeAndInsertResumePointIfNeeded` calls the resume point creator exactly when
`reached_prev_wpt()` is true after the switch to BRAKE, the index `curnavidx` captured before
the switch is greater than 3, and the mission's command count (read after the switch) is
below `num_commands_max()`.  When the control mode at entry is not AUTO the captured index is
-1 and the creator is not called. -/
theorem resume_point_attempted_iff (x : Externals) (b : AP_Mission.Build) (c : State) :
    (Event.CreateResumePointAtCurrentUavLocationAndState
          ∈ (BrakeAndInsertResumePointIfNeeded x b c).2 ↔
        AC_WPNav.reached_prev_wpt
            (x.set_mode c ModeNumber.BRAKE ModeReason.FAILSAFE).wp_nav = true ∧
          3 < curnavidx c ∧
          ((x.set_mode c ModeNumber.BRAKE ModeReason.FAILSAFE).mission.num_commands : ℤ)
            < (x.set_mode c ModeNumber.BRAKE ModeReason.FAILSAFE).mission.num_commands_max) ∧
      (c.control_mode ≠ ModeNumber.AUTO →
        curnavidx c = -1 ∧
          Event.CreateResumePointAtCurrentUavLocationAndState
            ∉ (BrakeAndInsertResumePointIfNeeded x b c).2) := by
  have hiff : Event.CreateResumePointAtCurrentUavLocationAndState
        ∈ (BrakeAndInsertResumePointIfNeeded x b c).2 ↔
      AC_WPNav.reached_prev_wpt
          (x.set_mode c ModeNumber.BRAKE ModeReason.FAILSAFE).wp_nav = true ∧
        3 < curnavidx c ∧
        ((x.set_mode c ModeNumber.BRAKE ModeReason.FAILSAFE).mission.num_commands : ℤ)
          < (x.set_mode c ModeNumber.BRAKE ModeReason.FAILSAFE).mission.num_commands_max := by
    unfold BrakeAndInsertResumePointIfNeeded
    simp only []
    split_ifs with h1 h2
    · simp at h1
      simp [h1]
    · simp at h1
      have h3 : ¬ 3 < curnavidx c := not_lt.mpr h2
      simp [h1, h3]
    · simp at h1
      have h3 : 3 < curnavidx c := not_le.mp h2
      simp [h1, h3, insert_resume_point_creates_iff]
  refine ⟨hiff, fun hmode => ?_⟩
  have hidx : curnavidx c = -1 := by simp [curnavidx, hmode]
  refine ⟨hidx, fun hmem => ?_⟩
  have := (hiff.mp hmem).2.1
  rw [hidx] at this
  norm_num at this

/-- Witness for C18: in STABILIZE no resume point is attempted. -/
theorem resume_point_attempted_iff_witness :
    stabilize_full_tank.control_mode ≠ ModeNumber.AUTO ∧
      curnavidx stabilize_full_tank = -1 ∧
      Event.CreateResumePointAtCurrentUavLocationAndState
        ∉ (BrakeAndInsertResumePointIfNeeded example_externals AP_Mission.mavlink_build
            stabilize_full_tank).2 :=
  have hmode : stabilize_full_tank.control_mode ≠ ModeNumber.AUTO := by decide
  ⟨hmode,
    (resume_point_attempted_iff example_externals AP_Mission.mavlink_build
      stabilize_full_tank).2 hmode⟩

/-- The effects of `update_tank_sensor` contain an entry into
`BrakeAndInsertResumePointIfNeeded` only under the guards of the call. -/
theorem update_tank_sensor_invokes_only_if (x : Externals) (b : AP_Mission.Build)
    (inBootDelay : Bool) (c : State) (r : Reads)
    (h : BrakeInvoked (update_tank_sensor x b inBootDelay c r).trace) :
    0 < c.pvtank_pin ∧ c._tank_sensor_status = TankSensorState.TANK_FULL ∧
      r.gpio_read (c.pvtank_pin.toNat % 256) = 0 ∧
      (inBootDelay = false ∨ 20000 < r.millis) ∧
      c.control_mode = ModeNumber.AUTO ∧ r.is_taking_off = false ∧ r.is_landing = false := by
  unfold update_tank_sensor BrakeInvoked at h
  simp only [] at h
  split_ifs at h with h1 h2 h3
  all_goals try (simp at h; done)
  all_goals first
    | exact ⟨not_le.mp h1, h2.1, h2.2, Or.inr h3.2, by assumption, by tauto, by tauto⟩
    | exact ⟨not_le.mp h1, h2.1, h2.2, Or.inl (by assumption), by assumption, by tauto,
        by tauto⟩

/-- Every path through `BrakeAndInsertResumePointIfNeeded` starts with the console line that
names the function. -/
theorem brake_trace_has_entry (x : Externals) (b : AP_Mission.Build) (c : State) :
    BrakeInvoked (BrakeAndInsertResumePointIfNeeded x b c).2 := by
  unfold BrakeAndInsertResumePointIfNeeded BrakeInvoked
  simp only []
  split_ifs <;> simp

/-- Under the guards of the call `update_tank_sensor` does enter
`BrakeAndInsertResumePointIfNeeded`. -/
theorem update_tank_sensor_invokes_if (x : Externals) (b : AP_Mission.Build)
    (inBootDelay : Bool) (c : State) (r : Reads) (hpin : 0 < c.pvtank_pin)
    (hfull : c._tank_sensor_status = TankSensorState.TANK_FULL)
    (hlow : r.gpio_read (c.pvtank_pin.toNat % 256) = 0)
    (hboot : inBootDelay = false ∨ 20000 < r.millis)
    (hauto : c.control_mode = ModeNumber.AUTO) (htakeoff : r.is_taking_off = false)
    (hland : r.is_landing = false) :
    BrakeInvoked (update_tank_sensor x b inBootDelay c r).trace := by
  have hentry := brake_trace_has_entry x b c
  have hcleared : (if inBootDelay = true ∧ r.millis > 20000 then false else inBootDelay)
      = false := by
    rcases hboot with h | h
    · simp [h]
    · cases inBootDelay <;> simp [h]
  unfold update_tank_sensor
  simp only []
  rw [if_neg (not_le.mpr hpin), if_pos ⟨hfull, hlow⟩, if_pos hcleared, if_pos hauto,
    if_pos ⟨htakeoff, hland⟩, if_pos (by rw [hauto]; decide)]
  unfold BrakeInvoked at hentry ⊢
  exact List.mem_append_right _ hentry

/-- The static `inBootDelay` is cleared by a call only when the clock of that call is past
20000 ms. -/
theorem update_tank_sensor_boot_delay (x : Externals) (b : AP_Mission.Build)
    (inBootDelay : Bool) (c : State) (r : Reads)
    (h : (update_tank_sensor x b inBootDelay c r).inBootDelay = false) :
    inBootDelay = false ∨ 20000 < r.millis := by
  unfold update_tank_sensor at h
  simp only [] at h
  split_ifs at h with h1 h2 h3
  all_goals first
    | exact Or.inl h
    | exact Or.inr h3.2

/-- After any sequence of calls from boot, a cleared `inBootDelay` means that some call saw a
clock past 20000 ms. -/
theorem run_tank_sensor_boot_delay (x : Externals) (b : AP_Mission.Build) (inBootDelay : Bool)
    (c : State) (slots : List Slot)
    (h : (run_tank_sensor x b inBootDelay c slots).1 = false) :
    inBootDelay = false ∨ ∃ s ∈ slots, 20000 < s.reads.millis := by
  induction slots generalizing inBootDelay c with
  | nil => exact Or.inl h
  | cons slot rest ih =>
    rcases ih _ _ h with h1 | ⟨s, hs, hlt⟩
    · rcases update_tank_sensor_boot_delay x b inBootDelay (slot.other_code c) slot.reads h1
        with h2 | h2
      · exact Or.inl h2
      · exact Or.inr ⟨slot, List.mem_cons_self _ _, h2⟩
    · exact Or.inr ⟨s, List.mem_cons_of_mem _ hs, hlt⟩

/-- C16: take any sequence of calls of `update_tank_sensor` since boot (the static
`inBootDelay` starts `true`), interleaved with arbitrary other code, with a clock that never
runs backwards.  A call that enters `BrakeAndInsertResumePointIfNeeded` has, at that call, a
tank pin parameter above 0, a stored status `TANK_FULL`, a pin reading of 0, a clock of at
least 8 seconds (in fact more than 20 seconds), control mode AUTO, and a flight mode that is
neither taking off nor landing. -/
theorem brake_invoked_only_if (x : Externals) (b : AP_Mission.Build) (c : State)
    (slots : List Slot) (slot : Slot)
    (hclock : ∀ s ∈ slots, s.reads.millis ≤ slot.reads.millis)
    (hinvoked : BrakeInvoked
      (update_tank_sensor x b (run_tank_sensor x b true c slots).1
        (slot.other_code (run_tank_sensor x b true c slots).2) slot.reads).trace) :
    0 < (slot.other_code (run_tank_sensor x b true c slots).2).pvtank_pin ∧
      (slot.other_code (run_tank_sensor x b true c slots).2)._tank_sensor_status
        = TankSensorState.TANK_FULL ∧
      slot.reads.gpio_read
        ((slot.other_code (run_tank_sensor x b true c slots).2).pvtank_pin.toNat % 256) = 0 ∧
      (8000 ≤ slot.reads.millis ∧ 20000 < slot.reads.millis) ∧
      (slot.other_code (run_tank_sensor x b true c slots).2).control_mode = ModeNumber.AUTO ∧
      slot.reads.is_taking_off = false ∧ slot.reads.is_landing = false := by
  obtain ⟨hpin, hfull, hlow, hboot, hauto, htakeoff, hland⟩ :=
    update_tank_sensor_invokes_only_if x b _ _ _ hinvoked
  have h20 : 20000 < slot.reads.millis := by
    rcases hboot with hcleared | hnow
    · rcases run_tank_sensor_boot_delay x b true c slots hcleared with h | ⟨s, hs, hlt⟩
      · cases h
      · exact lt_of_lt_of_le hlt (hclock s hs)
    · exact hnow
  exact ⟨hpin, hfull, hlow, ⟨by omega, h20⟩, hauto, htakeoff, hland⟩

/-- Witness for C16: the first call after boot, 25 s into the flight, in AUTO with a tank that
was full and now reads low, enters `BrakeAndInsertResumePointIfNeeded`. -/
theorem brake_invoked_only_if_witness :
    BrakeInvoked
        (update_tank_sensor example_externals AP_Mission.mavlink_build true auto_full_tank
          low_reading_after_boot).trace ∧
      0 < auto_full_tank.pvtank_pin ∧
      auto_full_tank._tank_sensor_status = TankSensorState.TANK_FULL ∧
      low_reading_after_boot.gpio_read (auto_full_tank.pvtank_pin.toNat % 256) = 0 ∧
      (8000 ≤ low_reading_after_boot.millis ∧ 20000 < low_reading_after_boot.millis) ∧
      auto_full_tank.control_mode = ModeNumber.AUTO ∧
      low_reading_after_boot.is_taking_off = false ∧
      low_reading_after_boot.is_landing = false :=
  have hinvoked : BrakeInvoked
      (update_tank_sensor example_externals AP_Mission.mavlink_build true auto_full_tank
        low_reading_after_boot).trace :=
    update_tank_sensor_invokes_if example_externals AP_Mission.mavlink_build true
      auto_full_tank low_reading_after_boot (by decide) rfl rfl (Or.inr (by decide)) rfl rfl rfl
  ⟨hinvoked,
    brake_invoked_only_if example_externals AP_Mission.mavlink_build auto_full_tank [] low_slot
      (by simp) hinvoked⟩

/-- C17: with a tank pin parameter above 0, after `update_tank_sensor` the stored status is
`TANK_FULL` if the pin read high and `TANK_EMPTY` if it read 0, hence never
`SENSOR_UNAVAILABLE`; with a pin parameter of 0 or less the call changes nothing, so the
stored status is the one before the call. -/
theorem update_tank_sensor_status (x : Externals) (b : AP_Mission.Build) (inBootDelay : Bool)
    (c : State) (r : Reads) :
    (0 < c.pvtank_pin →
        get_tank_sensor_status (update_tank_sensor x b inBootDelay c r).copter
            = (if 0 < r.gpio_read (c.pvtank_pin.toNat % 256) then TankSensorState.TANK_FULL
                else TankSensorState.TANK_EMPTY) ∧
          get_tank_sensor_status (update_tank_sensor x b inBootDelay c r).copter
            ≠ TankSensorState.SENSOR_UNAVAILABLE) ∧
      (c.pvtank_pin ≤ 0 →
        get_tank_sensor_status (update_tank_sensor x b inBootDelay c r).copter
            = get_tank_sensor_status c ∧
          (update_tank_sensor x b inBootDelay c r).trace = []) := by
  constructor
  · intro hpin
    have hval : get_tank_sensor_status (update_tank_sensor x b inBootDelay c r).copter
        = (if 0 < r.gpio_read (c.pvtank_pin.toNat % 256) then TankSensorState.TANK_FULL
            else TankSensorState.TANK_EMPTY) := by
      unfold update_tank_sensor get_tank_sensor_status
      simp only []
      rw [if_neg (not_le.mpr hpin)]
      split_ifs <;> rfl
    refine ⟨hval, ?_⟩
    rw [hval]
    split_ifs <;> decide
  · intro hpin
    simp [update_tank_sensor, hpin]

/-- Witness for C17: a low reading on a configured pin stores `TANK_EMPTY`; without a
configured pin the status stays `TANK_FULL`. -/
theorem update_tank_sensor_status_witness :
    get_tank_sensor_status
        (update_tank_sensor example_externals AP_Mission.mavlink_build true auto_full_tank
          low_reading_after_boot).copter = TankSensorState.TANK_EMPTY ∧
      get_tank_sensor_status
        (update_tank_sensor example_externals AP_Mission.mavlink_build true no_tank_pin
          low_reading_after_boot).copter = TankSensorState.TANK_FULL :=
  have h1 := (update_tank_sensor_status example_externals AP_Mission.mavlink_build true
    auto_full_tank low_reading_after_boot).1 (by decide)
  have h2 := (update_tank_sensor_status example_externals AP_Mission.mavlink_build true
    no_tank_pin low_reading_after_boot).2 (by decide)
  ⟨h1.1, h2.1⟩

end Copter

namespace AP_Mission

/-! ## Theorems on the user command starters -/

/-- C21: `start_command_user_1` returns `true` exactly when `cmd.id` is `MAV_CMD_USER_1` and a
sprayer is available; it then calls `sprayer->run(cmd.p1 > 0, cmd.content.user1.param3 > 0)`
once and nothing else; in every other case it returns `false` and calls nothing.
`start_command_user_2` and `start_command_user_3` return `false` and call nothing. -/
theorem start_command_user_outcomes (b : Build) (ap : Singletons) (cmd : Mission_Command) :
    ((start_command_user_1 b ap cmd).result = some true ↔
        cmd.id = b.MAV_CMD_USER_1 ∧ ap.sprayer = true) ∧
      start_command_user_1 b ap cmd
        = (if cmd.id = b.MAV_CMD_USER_1 ∧ ap.sprayer = true then
            ⟨[Call.sprayer_run (decide (cmd.p1 > 0)) (decide (cmd.content.user1.param3 > 0))],
              some true⟩
          else ⟨[], some false⟩) ∧
      start_command_user_2 cmd = ⟨[], some false⟩ ∧
      start_command_user_3 cmd = ⟨[], some false⟩ := by
  refine ⟨?_, ?_, rfl, rfl⟩
  · unfold start_command_user_1
    split_ifs with h1 h2 <;> simp_all
  · unfold start_command_user_1
    split_ifs with h1 h2 h3 h4 <;> simp_all

end AP_Mission

namespace Copter

/-! ## Theorems on the resume point -/

/-- C22 (the code at the failing input): for a checked waypoint whose location carries both
`relative_alt` and `terrain_alt`, the frame computed is `MAV_FRAME_GLOBAL_RELATIVE_ALT` (3)
and not `MAV_FRAME_GLOBAL_TERRAIN_ALT` (10), and that is the frame in the message sent to the
ground station. -/
theorem terrain_waypoint_reported_as_relative :
    terrain_waypoint.content.location.terrain_alt = true ∧
      mavlink_altitude_frame_being_used AP_Mission.mavlink_build
          terrain_waypoint.content.location
        = AP_Mission.mavlink_build.MAV_FRAME_GLOBAL_RELATIVE_ALT ∧
      mavlink_altitude_frame_being_used AP_Mission.mavlink_build
          terrain_waypoint.content.location
        ≠ AP_Mission.mavlink_build.MAV_FRAME_GLOBAL_TERRAIN_ALT ∧
      Event.send_resume_point_details_back_to_gcs 6 13 352000000 (-1200000000) 1500 3 1
        ∈ (BrakeAndInsertResumePointIfNeeded example_externals AP_Mission.mavlink_build
            auto_terrain_mission).2 := by
  refine ⟨rfl, by decide, by decide, ?_⟩
  decide

/-- The resume point creator is called by `BrakeAndInsertResumePointIfNeeded` exactly when the
previous waypoint was reached (read after the mode switch), the index captured before the
switch is above 3 and the mission has room. -/
theorem brake_creates_iff (x : Externals) (b : AP_Mission.Build) (c : State) :
    Event.CreateResumePointAtCurrentUavLocationAndState
        ∈ (BrakeAndInsertResumePointIfNeeded x b c).2 ↔
      AC_WPNav.reached_prev_wpt
          (x.set_mode c ModeNumber.BRAKE ModeReason.FAILSAFE).wp_nav = true ∧
        3 < curnavidx c ∧
        ((x.set_mode c ModeNumber.BRAKE ModeReason.FAILSAFE).mission.num_commands : ℤ)
          < (x.set_mode c ModeNumber.BRAKE ModeReason.FAILSAFE).mission.num_commands_max := by
  unfold BrakeAndInsertResumePointIfNeeded
  simp only []
  split_ifs with h1 h2
  · simp at h1
    simp [h1]
  · simp at h1
    have h3 : ¬ 3 < curnavidx c := not_lt.mpr h2
    simp [h1, h3]
  · simp at h1
    have h3 : 3 < curnavidx c := not_le.mp h2
    simp [h1, h3, insert_resume_point_creates_iff]

/-- Calls of the creator and of `sprayer.run` made by `insert_resume_point`. -/
theorem insert_resume_point_create_then_stop (x : Externals) (b : AP_Mission.Build)
    (wasSpraying : Bool) (c : State) :
    (insert_resume_point x b wasSpraying c).2.filter Event.is_create_or_sprayer_run
      = if (c.mission.num_commands : ℤ) < c.mission.num_commands_max then
          [Event.CreateResumePointAtCurrentUavLocationAndState, Event.sprayer_run false false]
        else [] := by
  unfold insert_resume_point
  simp only []
  split_ifs <;> simp [Event.is_create_or_sprayer_run]

/-- Calls of the creator and of `sprayer.run` made by `BrakeAndInsertResumePointIfNeeded`. -/
theorem brake_create_then_stop (x : Externals) (b : AP_Mission.Build) (c : State) :
    (BrakeAndInsertResumePointIfNeeded x b c).2.filter Event.is_create_or_sprayer_run
      = if Event.CreateResumePointAtCurrentUavLocationAndState
            ∈ (BrakeAndInsertResumePointIfNeeded x b c).2 then
          [Event.CreateResumePointAtCurrentUavLocationAndState, Event.sprayer_run false false]
        else [] := by
  have hiff := brake_creates_iff x b c
  by_cases hmem : Event.CreateResumePointAtCurrentUavLocationAndState
      ∈ (BrakeAndInsertResumePointIfNeeded x b c).2
  · rw [if_pos hmem]
    obtain ⟨h1, h2, h3⟩ := hiff.mp hmem
    unfold BrakeAndInsertResumePointIfNeeded
    simp only []
    rw [if_neg (by simp [h1]), if_neg (not_le.mpr h2)]
    simp [Event.is_create_or_sprayer_run, insert_resume_point_create_then_stop, h3]
  · rw [if_neg hmem]
    have hcond := mt hiff.mpr hmem
    unfold BrakeAndInsertResumePointIfNeeded
    simp only []
    split_ifs with h1 h2
    · simp [Event.is_create_or_sprayer_run]
    · simp [Event.is_create_or_sprayer_run]
    · simp at h1
      have h3 : 3 < curnavidx c := not_le.mp h2
      have h4 : ¬ ((x.set_mode c ModeNumber.BRAKE ModeReason.FAILSAFE).mission.num_commands : ℤ)
          < (x.set_mode c ModeNumber.BRAKE ModeReason.FAILSAFE).mission.num_commands_max :=
        fun h => hcond ⟨h1, h3, h⟩
      simp [Event.is_create_or_sprayer_run, insert_resume_point_create_then_stop, h4]

/-- C25: among the effects of `BrakeAndInsertResumePointIfNeeded`, the calls of the resume
point creator and of `sprayer.run` are the creator followed by `sprayer.run(false, false)`
when creation is attempted and none otherwise; so the sprayer is stopped exactly when
creation is attempted and only after it, and on the two early returns and with a full mission
`sprayer.run` is not called at all. -/
theorem sprayer_stopped_only_after_creation (x : Externals) (b : AP_Mission.Build) (c : State) :
    ((BrakeAndInsertResumePointIfNeeded x b c).2.filter Event.is_create_or_sprayer_run
        = if Event.CreateResumePointAtCurrentUavLocationAndState
              ∈ (BrakeAndInsertResumePointIfNeeded x b c).2 then
            [Event.CreateResumePointAtCurrentUavLocationAndState,
              Event.sprayer_run false false]
          else []) ∧
      (Event.sprayer_run false false ∈ (BrakeAndInsertResumePointIfNeeded x b c).2 ↔
        Event.CreateResumePointAtCurrentUavLocationAndState
          ∈ (BrakeAndInsertResumePointIfNeeded x b c).2) ∧
      (AC_WPNav.reached_prev_wpt
            (x.set_mode c ModeNumber.BRAKE ModeReason.FAILSAFE).wp_nav = false ∨
          curnavidx c ≤ 3 ∨
          ((x.set_mode c ModeNumber.BRAKE ModeReason.FAILSAFE).mission.num_commands_max : ℤ)
            ≤ (x.set_mode c ModeNumber.BRAKE ModeReason.FAILSAFE).mission.num_commands →
        ∀ p q : Bool, Event.sprayer_run p q ∉ (BrakeAndInsertResumePointIfNeeded x b c).2) := by
  have hfilter := brake_create_then_stop x b c
  have hiff := brake_creates_iff x b c
  have hrun : ∀ p q : Bool, Event.sprayer_run p q ∈ (BrakeAndInsertResumePointIfNeeded x b c).2 →
      Event.CreateResumePointAtCurrentUavLocationAndState
        ∈ (BrakeAndInsertResumePointIfNeeded x b c).2 := by
    intro p q hmem
    by_contra hno
    have hin : Event.sprayer_run p q
        ∈ (BrakeAndInsertResumePointIfNeeded x b c).2.filter Event.is_create_or_sprayer_run :=
      List.mem_filter.mpr ⟨hmem, rfl⟩
    rw [hfilter, if_neg hno] at hin
    cases hin
  refine ⟨hfilter, ⟨hrun false false, fun hmem => ?_⟩, fun hskip p q hmem => ?_⟩
  · have hin : Event.sprayer_run false false
        ∈ (BrakeAndInsertResumePointIfNeeded x b c).2.filter Event.is_create_or_sprayer_run := by
      rw [hfilter, if_pos hmem]
      simp
    exact (List.mem_filter.mp hin).1
  · obtain ⟨h1, h2, h3⟩ := hiff.mp (hrun p q hmem)
    rcases hskip with h | h | h
    · rw [h] at h1
      cases h1
    · omega
    · omega

/-- Witness for C25: with a full mission the sprayer is not stopped; with room in the mission
the creator runs and then the sprayer is stopped. -/
theorem sprayer_stopped_only_after_creation_witness :
    (∀ p q : Bool, Event.sprayer_run p q
        ∉ (BrakeAndInsertResumePointIfNeeded example_externals AP_Mission.mavlink_build
            auto_full_mission).2) ∧
      (BrakeAndInsertResumePointIfNeeded example_externals AP_Mission.mavlink_build
          auto_full_tank).2.filter Event.is_create_or_sprayer_run
        = [Event.CreateResumePointAtCurrentUavLocationAndState,
            Event.sprayer_run false false] :=
  ⟨(sprayer_stopped_only_after_creation example_externals AP_Mission.mavlink_build
      auto_full_mission).2.2 (Or.inr (Or.inr (by decide))),
    by decide⟩

/-- The message `insert_resume_point` sends, if it sends one: creation ran, its result code
is above 0, the command count changed, and the spray state argument is `wasSpraying`. -/
theorem insert_resume_point_sends (x : Externals) (b : AP_Mission.Build) (wasSpraying : Bool)
    (c : State) :
    ((∃ e ∈ (insert_resume_point x b wasSpraying c).2,
          e.is_send_resume_point_details = true) ↔
        (c.mission.num_commands : ℤ) < c.mission.num_commands_max ∧
          0 < (x.CreateResumePointAtCurrentUavLocationAndState c).1 ∧
          ((x.CreateResumePointAtCurrentUavLocationAndState c).2.mission.num_commands : ℤ)
            ≠ c.mission.num_commands) ∧
      ∀ i n lat lng alt frame spray : ℤ,
        Event.send_resume_point_details_back_to_gcs i n lat lng alt frame spray
            ∈ (insert_resume_point x b wasSpraying c).2 →
          spray = if wasSpraying then 1 else 0 := by
  unfold insert_resume_point
  simp only []
  split_ifs with h1 h2 h3 <;>
    simp_all [Event.is_send_resume_point_details]

/-- C28: `BrakeAndInsertResumePointIfNeeded` sends the resume point details exactly when the
creator was called, its result code is above 0 and the command count read after the creation
differs from the count read before it; the spray state argument of the message is 1 when
`sprayer.spraying()` was true on entry to the function and 0 otherwise. -/
theorem resume_point_details_sent_iff (x : Externals) (b : AP_Mission.Build) (c : State) :
    ((∃ e ∈ (BrakeAndInsertResumePointIfNeeded x b c).2,
          e.is_send_resume_point_details = true) ↔
        Event.CreateResumePointAtCurrentUavLocationAndState
            ∈ (BrakeAndInsertResumePointIfNeeded x b c).2 ∧
          0 < (x.CreateResumePointAtCurrentUavLocationAndState
            (x.set_mode c ModeNumber.BRAKE ModeReason.FAILSAFE)).1 ∧
          ((x.CreateResumePointAtCurrentUavLocationAndState
              (x.set_mode c ModeNumber.BRAKE ModeReason.FAILSAFE)).2.mission.num_commands : ℤ)
            ≠ (x.set_mode c ModeNumber.BRAKE ModeReason.FAILSAFE).mission.num_commands) ∧
      ∀ i n lat lng alt frame spray : ℤ,
        Event.send_resume_point_details_back_to_gcs i n lat lng alt frame spray
            ∈ (BrakeAndInsertResumePointIfNeeded x b c).2 →
          spray = if AC_Sprayer.spraying c.sprayer = true then 1 else 0 := by
  have hcreate := brake_creates_iff x b c
  obtain ⟨hsend, hspray⟩ := insert_resume_point_sends x b (AC_Sprayer.spraying c.sprayer)
    (x.set_mode c ModeNumber.BRAKE ModeReason.FAILSAFE)
  constructor
  · rw [hcreate]
    unfold BrakeAndInsertResumePointIfNeeded
    simp only []
    split_ifs with h1 h2
    · simp at h1
      simp [h1, Event.is_send_resume_point_details]
    · simp at h1
      have h3 : ¬ 3 < curnavidx c := not_lt.mpr h2
      simp [h3, Event.is_send_resume_point_details]
    · simp at h1
      have h3 : 3 < curnavidx c := not_le.mp h2
      constructor
      · rintro ⟨e, he, hsent⟩
        rcases List.mem_append.mp he with he | he
        · simp at he
          rcases he with rfl | rfl | rfl | rfl | rfl <;> cases hsent
        · obtain ⟨h4, h5, h6⟩ := hsend.mp ⟨e, he, hsent⟩
          exact ⟨⟨h1, h3, h4⟩, h5, h6⟩
      · rintro ⟨⟨-, -, h4⟩, h5, h6⟩
        obtain ⟨e, he, hsent⟩ := hsend.mpr ⟨h4, h5, h6⟩
        exact ⟨e, List.mem_append_right _ he, hsent⟩
  · intro i n lat lng alt frame spray hmem
    unfold BrakeAndInsertResumePointIfNeeded at hmem
    simp only [] at hmem
    split_ifs at hmem with h1 h2
    · simp at hmem
    · simp at hmem
    · rcases List.mem_append.mp hmem with he | he
      · simp at he
      · have := hspray i n lat lng alt frame spray he
        rw [this]

/-- Witness for C28: the example vehicle was spraying on entry; the message is sent with spray
state 1 although the sprayer has been stopped by then. -/
theorem resume_point_details_sent_iff_witness :
    Event.send_resume_point_details_back_to_gcs 6 13 0 0 0 0 1
        ∈ (BrakeAndInsertResumePointIfNeeded example_externals AP_Mission.mavlink_build
            auto_full_tank).2 ∧
      AC_Sprayer.spraying
        (BrakeAndInsertResumePointIfNeeded example_externals AP_Mission.mavlink_build
          auto_full_tank).1.sprayer = false ∧
      (1 : ℤ) = if AC_Sprayer.spraying auto_full_tank.sprayer = true then 1 else 0 :=
  have hmem : Event.send_resume_point_details_back_to_gcs 6 13 0 0 0 0 1
      ∈ (BrakeAndInsertResumePointIfNeeded example_externals AP_Mission.mavlink_build
          auto_full_tank).2 := by decide
  ⟨hmem, by decide,
    (resume_point_details_sent_iff example_externals AP_Mission.mavlink_build
      auto_full_tank).2 6 13 0 0 0 0 1 hmem⟩

/-! ## Theorems on the edge of the tank trigger -/

/-- A call that does not find the stored status `TANK_FULL` does not enter
`BrakeAndInsertResumePointIfNeeded`. -/
theorem update_tank_sensor_quiet_unless_full (x : Externals) (b : AP_Mission.Build)
    (inBootDelay : Bool) (c : State) (r : Reads)
    (h : c._tank_sensor_status ≠ TankSensorState.TANK_FULL) :
    ¬ BrakeInvoked (update_tank_sensor x b inBootDelay c r).trace :=
  fun hinv => h (update_tank_sensor_invokes_only_if x b inBootDelay c r hinv).2.1

/-- Stored status after a call, by what the call read. -/
theorem update_tank_sensor_stored (x : Externals) (b : AP_Mission.Build) (inBootDelay : Bool)
    (c : State) (r : Reads) :
    (update_tank_sensor x b inBootDelay c r).copter._tank_sensor_status
      = if c.pvtank_pin ≤ 0 then c._tank_sensor_status
        else if 0 < r.gpio_read (c.pvtank_pin.toNat % 256) then TankSensorState.TANK_FULL
        else TankSensorState.TANK_EMPTY := by
  unfold update_tank_sensor
  simp only []
  split_ifs <;> rfl

/-- After a call that found a status other than `TANK_FULL` and did not read the pin high,
the stored status is still not `TANK_FULL`. -/
theorem update_tank_sensor_stays_not_full (x : Externals) (b : AP_Mission.Build)
    (inBootDelay : Bool) (c : State) (r : Reads)
    (h : c._tank_sensor_status ≠ TankSensorState.TANK_FULL)
    (hnot : ¬ (0 < c.pvtank_pin ∧ 0 < r.gpio_read (c.pvtank_pin.toNat % 256))) :
    (update_tank_sensor x b inBootDelay c r).copter._tank_sensor_status
      ≠ TankSensorState.TANK_FULL := by
  rw [update_tank_sensor_stored]
  split_ifs with h1 h2
  · exact h
  · exact absurd ⟨not_le.mp h1, h2⟩ hnot
  · decide

/-- While the stored status is not `TANK_FULL` and no call reads the pin high, no call enters
`BrakeAndInsertResumePointIfNeeded`; the first call that reads high does not either. -/
theorem history_quiet_while_not_full (x : Externals) (b : AP_Mission.Build)
    (slots : List Slot) (inBootDelay : Bool) (c : State)
    (hkeep : ∀ s ∈ slots, s.keeps_tank_status)
    (h : c._tank_sensor_status ≠ TankSensorState.TANK_FULL)
    (mid : List TankCall) (k : TankCall) (post : List TankCall)
    (hsplit : tank_sensor_history x b inBootDelay c slots = mid ++ k :: post)
    (hstay : ∀ m ∈ mid, ¬ m.read_high) :
    ¬ BrakeInvoked k.updated.trace := by
  induction slots generalizing inBootDelay c mid with
  | nil => cases mid <;> cases hsplit
  | cons slot rest ih =>
    have hentry : (slot.other_code c)._tank_sensor_status ≠ TankSensorState.TANK_FULL := by
      rw [hkeep slot (List.mem_cons_self _ _) c]
      exact h
    have hrest : ∀ s ∈ rest, s.keeps_tank_status :=
      fun s hs => hkeep s (List.mem_cons_of_mem _ hs)
    cases mid with
    | nil =>
      simp only [tank_sensor_history, List.nil_append, List.cons.injEq] at hsplit
      rw [← hsplit.1]
      exact update_tank_sensor_quiet_unless_full x b inBootDelay _ slot.reads hentry
    | cons m mid =>
      simp only [tank_sensor_history, List.cons_append, List.cons.injEq] at hsplit
      have hm : ¬ m.read_high := hstay m (List.mem_cons_self _ _)
      rw [← hsplit.1] at hm
      exact ih _ _ hrest
        (update_tank_sensor_stays_not_full x b inBootDelay _ slot.reads hentry hm) mid
        hsplit.2 (fun m' hm' => hstay m' (List.mem_cons_of_mem _ hm'))

/-- A tail of the history of a sequence of slots is the history of a tail of the slots. -/
theorem history_tail (x : Externals) (b : AP_Mission.Build) (slots : List Slot)
    (inBootDelay : Bool) (c : State) (pre tail : List TankCall)
    (hsplit : tank_sensor_history x b inBootDelay c slots = pre ++ tail) :
    ∃ (boot : Bool) (c' : State) (slots' : List Slot),
      (∀ s ∈ slots', s ∈ slots) ∧ tank_sensor_history x b boot c' slots' = tail := by
  induction pre generalizing slots inBootDelay c with
  | nil => exact ⟨inBootDelay, c, slots, fun _ hs => hs, hsplit⟩
  | cons p pre ih =>
    cases slots with
    | nil => cases hsplit
    | cons slot rest =>
      simp only [tank_sensor_history, List.cons_append, List.cons.injEq] at hsplit
      obtain ⟨boot, c', slots', hsub, hhist⟩ := ih rest _ _ hsplit.2
      exact ⟨boot, c', slots', fun s hs => List.mem_cons_of_mem _ (hsub s hs), hhist⟩

/-- C26: in any sequence of calls of `update_tank_sensor`, interleaved with other code that
does not write the stored tank status, once a call has read the configured pin low, no later
call enters `BrakeAndInsertResumePointIfNeeded` as long as no call in between has read the
pin high; this holds whatever the boot delay, the control mode and the flight mode were when
the pin was first read low. -/
theorem tank_trigger_is_edge_based (x : Externals) (b : AP_Mission.Build) (inBootDelay : Bool)
    (c : State) (slots : List Slot) (hkeep : ∀ s ∈ slots, s.keeps_tank_status)
    (pre : List TankCall) (low : TankCall) (mid : List TankCall) (later : TankCall)
    (post : List TankCall)
    (hsplit : tank_sensor_history x b inBootDelay c slots
      = pre ++ low :: (mid ++ later :: post))
    (hlow : low.read_low) (hstay : ∀ m ∈ mid, ¬ m.read_high) :
    ¬ BrakeInvoked later.updated.trace := by
  obtain ⟨boot, c', slots', hsub, hhist⟩ := history_tail x b slots inBootDelay c pre _ hsplit
  cases slots' with
  | nil => cases hhist
  | cons slot rest =>
    simp only [tank_sensor_history, List.cons.injEq] at hhist
    have hafter :
        (update_tank_sensor x b boot (slot.other_code c')
          slot.reads).copter._tank_sensor_status ≠ TankSensorState.TANK_FULL := by
      have h1 := hlow.1
      have h2 := hlow.2
      rw [← hhist.1] at h1 h2
      simp only [] at h1 h2
      rw [update_tank_sensor_stored, if_neg (not_le.mpr h1), if_neg (by omega)]
      decide
    exact history_quiet_while_not_full x b rest _ _
      (fun s hs => hkeep s (hsub s (List.mem_cons_of_mem _ hs))) hafter mid later post
      hhist.2 hstay

/-- Witness for C26: the pin is first read low while the vehicle is in STABILIZE; on the next
call the vehicle is in AUTO, the boot delay is over and the pin is still low, and the brake
is not triggered. -/
theorem tank_trigger_is_edge_based_witness :
    stabilize_low_call.read_low ∧ auto_low_call.entry.control_mode = ModeNumber.AUTO ∧
      ¬ BrakeInvoked auto_low_call.updated.trace :=
  have hlow : stabilize_low_call.read_low := ⟨by decide, rfl⟩
  ⟨hlow, rfl,
    tank_trigger_is_edge_based example_externals AP_Mission.mavlink_build true
      stabilize_full_tank [low_slot, auto_low_slot]
      (by
        intro s hs
        simp at hs
        rcases hs with rfl | rfl <;> intro c <;> rfl)
      [] stabilize_low_call [] auto_low_call [] rfl hlow (by simp)⟩

/-- C27: after the constructor the tank status is `SENSOR_UNAVAILABLE`, and the first call of
`update_tank_sensor` (after other code that does not write the stored tank status) does not
enter `BrakeAndInsertResumePointIfNeeded`, whatever the pin reads, the clock, the boot delay
and the flight mode. -/
theorem first_call_never_brakes (x : Externals) (b : AP_Mission.Build) (members : State)
    (other_code : State → State) (inBootDelay : Bool) (r : Reads)
    (hkeep : (other_code (Copter members))._tank_sensor_status
      = (Copter members)._tank_sensor_status) :
    get_tank_sensor_status (Copter members) = TankSensorState.SENSOR_UNAVAILABLE ∧
      ¬ BrakeInvoked
        (update_tank_sensor x b inBootDelay (other_code (Copter members)) r).trace := by
  refine ⟨rfl, update_tank_sensor_quiet_unless_full x b inBootDelay _ r ?_⟩
  rw [hkeep]
  show TankSensorState.SENSOR_UNAVAILABLE ≠ TankSensorState.TANK_FULL
  decide

/-- Witness for C27: a vehicle built around the example members, put into AUTO before the
first call, with the pin low 25 s after boot. -/
theorem first_call_never_brakes_witness :
    get_tank_sensor_status (Copter auto_full_tank) = TankSensorState.SENSOR_UNAVAILABLE ∧
      ¬ BrakeInvoked
        (update_tank_sensor example_externals AP_Mission.mavlink_build true
          (auto_low_slot.other_code (Copter auto_full_tank)) low_reading_after_boot).trace :=
  first_call_never_brakes example_externals AP_Mission.mavlink_build auto_full_tank
    auto_low_slot.other_code true low_reading_after_boot rfl

/-! ## Theorems on simple and super simple mode -/

/-- C23: `update_super_simple_bearing(force_update)` changes nothing when `force_update` is
false and either `simple_mode != 2` or `home_distance() < SUPER_SIMPLE_RADIUS`, and (for either
value of `force_update`) when the bearing to home is less than 500 centi-degrees away from
`super_simple_last_bearing`; in every other case it stores the bearing to home in
`super_simple_last_bearing` (and the cosine and sine of the new heading). -/
theorem update_super_simple_bearing_cases (k : SimpleBuild) (s : SimpleMode) (r : SimpleReads)
    (force_update : Bool) :
    (force_update = false →
        s.simple_mode ≠ 2 ∨ r.home_distance < k.SUPER_SIMPLE_RADIUS →
        update_super_simple_bearing k s r force_update = s) ∧
      (|s.super_simple_last_bearing - r.home_bearing| < 500 →
        update_super_simple_bearing k s r force_update = s) ∧
      (¬ (force_update = false ∧
            (s.simple_mode ≠ 2 ∨ r.home_distance < k.SUPER_SIMPLE_RADIUS)) →
        ¬ |s.super_simple_last_bearing - r.home_bearing| < 500 →
        (update_super_simple_bearing k s r force_update).super_simple_last_bearing
            = r.home_bearing ∧
          (update_super_simple_bearing k s r force_update).super_simple_cos_yaw
            = Real.cos (radians (((r.home_bearing + 18000).tdiv 100 : ℤ) : ℝ)) ∧
          (update_super_simple_bearing k s r force_update).super_simple_sin_yaw
            = Real.sin (radians (((r.home_bearing + 18000).tdiv 100 : ℤ) : ℝ))) := by
  refine ⟨fun hforce hskip => ?_, fun hclose => ?_, fun hgo hfar => ?_⟩
  · unfold update_super_simple_bearing
    rw [if_pos hforce]
    rcases hskip with h | h
    · rw [if_pos h]
    · split_ifs <;> rfl
  · have hstore : store_home_bearing s r = s := by
      unfold store_home_bearing
      simp only []
      rw [if_pos hclose]
    unfold update_super_simple_bearing
    split_ifs <;> first | rfl | exact hstore
  · have hstore : update_super_simple_bearing k s r force_update = store_home_bearing s r := by
      unfold update_super_simple_bearing
      split_ifs with h1 h2 h3
      · exact absurd ⟨h1, Or.inl h2⟩ hgo
      · exact absurd ⟨h1, Or.inr h3⟩ hgo
      · rfl
      · rfl
    rw [hstore]
    unfold store_home_bearing
    simp only []
    rw [if_neg hfar]
    exact ⟨rfl, rfl, rfl⟩

/-- Witness for C23: in super simple mode, 50 m from home with the bearing changed from 9000 to
18000, the bearing is stored; 5 m from home nothing changes. -/
theorem update_super_simple_bearing_cases_witness :
    update_super_simple_bearing simple_build super_simple_input near_home false
        = super_simple_input ∧
      (update_super_simple_bearing simple_build super_simple_input far_from_home
        false).super_simple_last_bearing = 18000 :=
  have h1 := (update_super_simple_bearing_cases simple_build super_simple_input near_home
    false).1 rfl (Or.inr (by decide))
  have h2 := (update_super_simple_bearing_cases simple_build super_simple_input far_from_home
    false).2.2
    (by
      rintro ⟨-, h | h⟩
      · exact h rfl
      · exact absurd h (by decide))
    (by decide)
  ⟨h1, h2.1⟩

/-- C24: `update_simple_mode` changes nothing when `ap.simple_mode == 0` or `ap.new_radio_frame`
is false; in every other case it clears `ap.new_radio_frame`; hence a second call made
without a new radio frame leaves the result of the first call as it is. -/
theorem update_simple_mode_consumes_frame (k : SimpleBuild) (s : SimpleMode)
    (r again : SimpleReads) :
    (s.simple_mode = 0 ∨ s.new_radio_frame = false → update_simple_mode k s r = s) ∧
      (¬ (s.simple_mode = 0 ∨ s.new_radio_frame = false) →
        (update_simple_mode k s r).new_radio_frame = false) ∧
      update_simple_mode k (update_simple_mode k s r) again = update_simple_mode k s r := by
  have hskip : s.simple_mode = 0 ∨ s.new_radio_frame = false → update_simple_mode k s r = s := by
    intro h
    unfold update_simple_mode
    rw [if_pos h]
  have hclear : ¬ (s.simple_mode = 0 ∨ s.new_radio_frame = false) →
      (update_simple_mode k s r).new_radio_frame = false := by
    intro h
    unfold update_simple_mode
    rw [if_neg h]
  refine ⟨hskip, hclear, ?_⟩
  by_cases h : s.simple_mode = 0 ∨ s.new_radio_frame = false
  · rw [hskip h]
    unfold update_simple_mode
    rw [if_pos h]
  · have hframe := hclear h
    generalize update_simple_mode k s r = t at hframe
    unfold update_simple_mode
    rw [if_pos (Or.inr hframe)]

/-- Witness for C24: with a new radio frame in super simple mode the frame is consumed, and a
second call does nothing. -/
theorem update_simple_mode_consumes_frame_witness :
    (update_simple_mode simple_build super_simple_input far_from_home).new_radio_frame
        = false ∧
      update_simple_mode simple_build { super_simple_input with new_radio_frame := false }
        far_from_home = { super_simple_input with new_radio_frame := false } :=
  ⟨(update_simple_mode_consumes_frame simple_build super_simple_input far_from_home
      far_from_home).2.1 (by
        rintro (h | h)
        · exact absurd h (by decide)
        · exact absurd h (by decide)),
    (update_simple_mode_consumes_frame simple_build
      { super_simple_input with new_radio_frame := false } far_from_home far_from_home).1
      (Or.inr rfl)⟩

end Copter
